import Mathlib

/-!
Period tracker front end: cycle phase, countdowns, payloads and session state.

A shallow embedding of `src/App.jsx`, `src/components/Dashboard.jsx`,
`src/components/PeriodForm.jsx` and `src/components/OvulationForm.jsx`.

Conventions of the embedding.

* A JavaScript `Date` is its local wall-clock time in milliseconds since the
  epoch, an `Int`; an Invalid Date is `none`.  The date-fns functions the
  dashboard calls read local fields only, so this is the information they use.
* A JavaScript number that may be `NaN` (or a `null` coming out of
  `getDaysUntil`) is an `Option Int`; comparing `none` with a number is false,
  as in JavaScript.
* `new Date()` is an explicit argument, one for each call that reads the
  clock: `today`, or `todayGuard` and `todayText` where an expression calls
  `getDaysUntil` twice.
* `parseISO` of date-fns is an argument of the functions that call it;
  `parseISODate` is its behaviour on the complete calendar date form
  `YYYY-MM-DD`, the form the forms of this repository produce.
* React state cells and the `token` entry of `localStorage` are fields of a
  state record; a handler is a function of the outcome of its network request
  and of the state the application is in when that outcome arrives, which is
  the state its writes apply to.
-/

namespace PeriodTracker

/-! ## Dates (date-fns) -/

/-- Milliseconds in a day. -/
def MS_PER_DAY : Int := 86400000

/-- Local midnight of the day numbered `day` (days since the epoch). -/
def startOfDay (day : Int) : Int := day * MS_PER_DAY

/-- The date-fns function `differenceInDays(dateLeft, dateRight)`: the number of
full days between the two local times, rounded towards zero; `NaN` when either
date is invalid. -/
def differenceInDays (dateLeft dateRight : Option Int) : Option Int :=
  match dateLeft, dateRight with
  | some l, some r => some ((l - r).tdiv MS_PER_DAY)
  | _, _ => none

/-- JavaScript `x <= k` for a number `x` that may be `NaN` or `null`-from-absent. -/
def jsLe (x : Option Int) (k : Int) : Bool :=
  match x with
  | some v => decide (v ≤ k)
  | none => false

/-- JavaScript `x > k` for a number `x` that may be `NaN`; `null > 0` is false
as well. -/
def jsGt (x : Option Int) (k : Int) : Bool :=
  match x with
  | some v => decide (k < v)
  | none => false

/-- Value of a decimal digit character. -/
def digitValue (c : Char) : Option Nat :=
  if c.isDigit then some (c.toNat - 48) else none

/-- Whether `y` is a leap year of the proleptic Gregorian calendar. -/
def isLeapYear (y : Nat) : Bool :=
  y % 400 == 0 || (y % 4 == 0 && y % 100 != 0)

/-- Number of days of month `m` (1 to 12) in year `y`. -/
def daysInMonth (y m : Nat) : Nat :=
  if m == 2 then (if isLeapYear y then 29 else 28)
  else if m == 4 || m == 6 || m == 9 || m == 11 then 30
  else 31

/-- Day number (days since 1970-01-01) of the civil date `y-m-d`. -/
def daysFromCivil (y m d : Nat) : Int :=
  let yy : Int := if m ≤ 2 then (y : Int) - 1 else y
  let era : Int := yy / 400
  let yoe : Int := yy - era * 400
  let mp : Int := if m ≤ 2 then (m : Int) + 9 else (m : Int) - 3
  let doy : Int := (153 * mp + 2) / 5 + (d : Int) - 1
  let doe : Int := yoe * 365 + yoe / 4 - yoe / 100 + doy
  era * 146097 + doe - 719468

/-- The date-fns function `parseISO` on a complete calendar date `YYYY-MM-DD`:
local midnight of that date; an Invalid Date when the month or the day is out
of range.  Strings of another shape are outside this model (`none`). -/
def parseISODate (s : String) : Option Int :=
  match s.data with
  | [y1, y2, y3, y4, '-', m1, m2, '-', d1, d2] =>
    match digitValue y1, digitValue y2, digitValue y3, digitValue y4,
          digitValue m1, digitValue m2, digitValue d1, digitValue d2 with
    | some a, some b, some c, some e, some f, some g, some h, some i =>
      let y := a * 1000 + b * 100 + c * 10 + e
      let m := f * 10 + g
      let d := h * 10 + i
      if 1 ≤ m ∧ m ≤ 12 ∧ 1 ≤ d ∧ d ≤ daysInMonth y m then
        some (startOfDay (daysFromCivil y m d))
      else none
    | _, _, _, _, _, _, _, _ => none
  | _ => none

/-! ## Dashboard.jsx -/

/-- A period record as the service returns it. -/
structure PeriodRecord where
  id : Nat
  start_date : String
  end_date : Option String
  flow_intensity : Option String
  symptoms : Option String
  deriving DecidableEq, Repr

/-- An ovulation record as the service returns it; the temperature is kept as
the service's text. -/
structure OvulationRecord where
  id : Nat
  ovulation_date : String
  basal_body_temperature : Option String
  cervical_mucus : Option String
  symptoms : Option String
  deriving DecidableEq, Repr

/-- A forecast object `{predicted_date?, confidence}`. -/
structure Forecast where
  predicted_date : Option String
  confidence : Option String
  deriving DecidableEq, Repr

/-- The `predictions` object: each key is set only when its fetch succeeded. -/
structure Predictions where
  period : Option Forecast
  ovulation : Option Forecast
  deriving DecidableEq, Repr

/-- The cycle statistics object, display only. -/
structure CycleStats where
  average_cycle_length : Option String
  average_period_length : Option String
  total_periods : Option Nat
  cycle_regularity : Option String
  deriving DecidableEq, Repr

/-- The state cells of the `Dashboard` component (lines 11 to 15). -/
structure DashboardState where
  periods : List PeriodRecord
  ovulations : List OvulationRecord
  predictions : Predictions
  stats : CycleStats
  loading : Bool
  deriving DecidableEq, Repr

/-- The object `getPhaseInfo` returns. -/
structure PhaseInfo where
  phase : String
  description : String
  deriving DecidableEq, Repr

/-- The function `getDaysUntil` (Dashboard.jsx lines 68 to 73): `null` for a
falsy `dateString`, else the full days from `today` to the parsed date. -/
def getDaysUntil (parseISO : String → Option Int) (today : Int)
    (dateString : Option String) : Option Int :=
  match dateString with
  | none => none
  | some ds =>
    if ds = "" then none
    else
      let targetDate := parseISO ds
      differenceInDays targetDate (some today)

/-- The function `getPhaseInfo` (Dashboard.jsx lines 75 to 93), reading the
`periods` cell of the component state. -/
def getPhaseInfo (parseISO : String → Option Int) (today : Int)
    (st : DashboardState) : PhaseInfo :=
  match st.periods.head? with
  | none => { phase := "Unknown", description := "Add your first period to get started" }
  | some lastPeriod =>
    let lastPeriodDate := parseISO lastPeriod.start_date
    let daysSinceLastPeriod := differenceInDays (some today) lastPeriodDate
    if jsLe daysSinceLastPeriod 7 then
      { phase := "Menstrual", description := "Your period is currently active or just ended" }
    else if jsLe daysSinceLastPeriod 14 then
      { phase := "Follicular", description := "Your body is preparing for ovulation" }
    else if jsLe daysSinceLastPeriod 21 then
      { phase := "Ovulation", description := "You may be ovulating or in your fertile window" }
    else
      { phase := "Luteal", description := "Your body is preparing for your next period" }

/-- JavaScript truthiness of an optional string field. -/
def truthy (s : Option String) : Bool :=
  match s with
  | some v => v != ""
  | none => false

/-- The countdown paragraph of a forecast card (Dashboard.jsx lines 169 to 172
and 198 to 201).  The expression calls `getDaysUntil` twice, in the condition
and in the template, and each call reads the clock: `todayGuard` is the reading
of the first call, `todayText` the reading of the second.  A count that is not
positive in the condition gives the card's fixed label. -/
def countdownText (parseISO : String → Option Int) (todayGuard todayText : Int)
    (predicted_date : Option String) (label : String) : String :=
  if jsGt (getDaysUntil parseISO todayGuard predicted_date) 0 then
    match getDaysUntil parseISO todayText predicted_date with
    | some n => "In " ++ toString n ++ " days"
    | none => if truthy predicted_date then "In NaN days" else "In null days"
  else label

/-- What a forecast card shows under its title (Dashboard.jsx lines 163 to 180
and 192 to 209), as far as the countdown goes: the prompt `prompt` when there
is no truthy `predicted_date`; else the date is formatted first, and `format`
of date-fns throws on an Invalid Date, so that nothing is rendered (`none`);
else the countdown paragraph. -/
def forecastText (parseISO : String → Option Int) (todayGuard todayText : Int)
    (predicted_date : Option String) (label prompt : String) : Option String :=
  match predicted_date with
  | none => some prompt
  | some ds =>
    if ds = "" then some prompt
    else
      match parseISO ds with
      | none => none
      | some _ => some (countdownText parseISO todayGuard todayText predicted_date label)

/-- Text of the Next Period card (lines 163 to 180). -/
def nextPeriodText (parseISO : String → Option Int) (todayGuard todayText : Int)
    (predictions : Predictions) : Option String :=
  forecastText parseISO todayGuard todayText
    (predictions.period.bind (fun f => f.predicted_date))
    "Expected now or overdue" "Add more period data for predictions"

/-- Text of the Next Ovulation card (lines 192 to 209). -/
def nextOvulationText (parseISO : String → Option Int) (todayGuard todayText : Int)
    (predictions : Predictions) : Option String :=
  forecastText parseISO todayGuard todayText
    (predictions.ovulation.bind (fun f => f.predicted_date))
    "Expected now or passed" "Add period data for ovulation predictions"

/-! ## PeriodForm.jsx and OvulationForm.jsx -/

/-- A value of a submitted JSON object.  `parseFloat s` stands for the number
JavaScript's `parseFloat` yields on the text `s`. -/
inductive JsonValue where
  | null
  | str (s : String)
  | parseFloat (s : String)
  deriving DecidableEq, Repr

/-- A JSON object under construction: its keys with their values, in insertion
order. -/
abbrev JsonObject := List (String × JsonValue)

/-- Whether the object has the key. -/
def hasKey (o : JsonObject) (k : String) : Bool :=
  o.any (fun kv => kv.1 == k)

/-- Value stored under a key, `none` when the key is not in the object. -/
def getKey (o : JsonObject) (k : String) : Option JsonValue :=
  (o.find? (fun kv => kv.1 == k)).map (fun kv => kv.2)

/-- JavaScript `s || null` on a string. -/
def orNull (s : String) : JsonValue :=
  if s = "" then JsonValue.null else JsonValue.str s

/-- The `formData` cell of `PeriodForm` (PeriodForm.jsx lines 17 to 22). -/
structure PeriodFormData where
  start_date : String
  end_date : String
  flow_intensity : String
  symptoms : String
  deriving DecidableEq, Repr

/-- The `formData` cell of `OvulationForm` (OvulationForm.jsx lines 17 to 22). -/
structure OvulationFormData where
  ovulation_date : String
  basal_body_temperature : String
  cervical_mucus : String
  symptoms : String
  deriving DecidableEq, Repr

/-- The object `submitData` that `handleSubmit` of `PeriodForm` builds and
sends (PeriodForm.jsx lines 43 to 52). -/
def periodSubmitData (formData : PeriodFormData) : JsonObject :=
  let submitData : JsonObject :=
    [ ("start_date", JsonValue.str formData.start_date),
      ("flow_intensity", orNull formData.flow_intensity),
      ("symptoms", orNull formData.symptoms) ]
  if formData.end_date ≠ "" then
    submitData ++ [("end_date", JsonValue.str formData.end_date)]
  else submitData

/-- The object `submitData` that `handleSubmit` of `OvulationForm` builds and
sends (OvulationForm.jsx lines 43 to 48). -/
def ovulationSubmitData (formData : OvulationFormData) : JsonObject :=
  [ ("ovulation_date", JsonValue.str formData.ovulation_date),
    ("basal_body_temperature",
      if formData.basal_body_temperature ≠ "" then
        JsonValue.parseFloat formData.basal_body_temperature
      else JsonValue.null),
    ("cervical_mucus", orNull formData.cervical_mucus),
    ("symptoms", orNull formData.symptoms) ]

/-! ## App.jsx -/

/-- The user profile object. -/
structure User where
  id : Nat
  username : String
  deriving DecidableEq, Repr

/-- A field read from a parsed JSON body, as far as `||` and `alert` see it:
absent (`undefined`), `null`, a string, or another value (a number, a boolean,
an array, an object) given by its truthiness and by the text `alert` shows for
it. -/
inductive FieldValue where
  | absent
  | null
  | str (s : String)
  | other (truthy : Bool) (text : String)
  deriving DecidableEq, Repr

/-- JavaScript truthiness of a field. -/
def FieldValue.truthy (v : FieldValue) : Bool :=
  match v with
  | FieldValue.absent => false
  | FieldValue.null => false
  | FieldValue.str s => s != ""
  | FieldValue.other t _ => t

/-- The text `alert` shows for a field. -/
def FieldValue.text (v : FieldValue) : String :=
  match v with
  | FieldValue.absent => "undefined"
  | FieldValue.null => "null"
  | FieldValue.str s => s
  | FieldValue.other _ t => t

/-- What `response.json()` resolves to: the JSON value `null`, on which reading
a property throws a `TypeError`, or a value whose properties can be read, given
by the fields the handlers read (a body that is a number, a string or an array
has none of them). -/
inductive Parsed (α : Type) where
  | null
  | fields (data : α)
  deriving DecidableEq, Repr

/-- The fields of a login or register response body that the handlers read. -/
structure AuthBody where
  access_token : Option String
  user : Option User
  error : FieldValue
  deriving DecidableEq, Repr

/-- A response `fetch` resolved with: its status and its body as
`response.json()` yields it, `none` when `response.json()` throws. -/
structure Response (β : Type) where
  status : Nat
  json : Option β
  deriving DecidableEq, Repr

/-- The property `response.ok`: the status is in the range 200 to 299. -/
def Response.ok {β : Type} (r : Response β) : Bool :=
  decide (200 ≤ r.status) && decide (r.status ≤ 299)

/-- Outcome of an awaited `fetch`: it threw (network error) or resolved. -/
inductive FetchOutcome (β : Type) where
  | threw
  | resolved (r : Response β)
  deriving DecidableEq, Repr

/-- The state cells of `App` (App.jsx lines 17 to 19) with the `token` entry of
`localStorage`. -/
structure AppState where
  user : Option User
  token : Option String
  loading : Bool
  storage : Option String
  deriving DecidableEq, Repr

/-- State of `App` when it mounts: the token is read from `localStorage`
(App.jsx lines 17 to 19). -/
def initialState (stored : Option String) : AppState :=
  { user := none, token := stored, loading := false, storage := stored }

/-- The text `localStorage.setItem` stores for a value that may be `undefined`. -/
def storedText (v : Option String) : String :=
  match v with
  | some a => a
  | none => "undefined"

/-- JavaScript `e || fallback` as `alert` shows it. -/
def orElse (e : FieldValue) (fallback : String) : String :=
  if e.truthy then e.text else fallback

/-- The function `fetchUserProfile` from its `await` on (App.jsx lines 48 to
69): what it writes, to the state `s` the application is in when the response
of `/api/profile` arrives. -/
def fetchUserProfile (s : AppState) (o : FetchOutcome (Parsed User)) : AppState :=
  match o with
  | FetchOutcome.threw => { s with storage := none, token := none }
  | FetchOutcome.resolved response =>
    if response.ok then
      match response.json with
      | some (Parsed.fields userData) => { s with user := some userData }
      | some Parsed.null => { s with user := none }
      | none => { s with storage := none, token := none }
    else
      { s with storage := none, token := none }

/-- Body shared by `handleLogin` and `handleRegister`, which differ in the
endpoint and in their messages only: the state after the call and the text
passed to `alert`, if any.  Reading a property of a `null` body throws into the
`catch` branch. -/
def handleAuth (fallback retry : String) (s : AppState)
    (o : FetchOutcome (Parsed AuthBody)) : AppState × Option String :=
  let s1 := { s with loading := true }
  match o with
  | FetchOutcome.threw => ({ s1 with loading := false }, some retry)
  | FetchOutcome.resolved response =>
    match response.json with
    | none => ({ s1 with loading := false }, some retry)
    | some Parsed.null => ({ s1 with loading := false }, some retry)
    | some (Parsed.fields data) =>
      if response.ok then
        ({ s1 with
            storage := some (storedText data.access_token),
            token := data.access_token,
            user := data.user,
            loading := false }, none)
      else
        ({ s1 with loading := false }, some (orElse data.error fallback))

/-- The function `handleLogin` (App.jsx lines 70 to 96) on the outcome of its
request to `/api/login`. -/
def handleLogin (s : AppState) (o : FetchOutcome (Parsed AuthBody)) :
    AppState × Option String :=
  handleAuth "Login failed" "Login failed. Please try again." s o

/-- The function `handleRegister` (App.jsx lines 98 to 124) on the outcome of
its request to `/api/register`. -/
def handleRegister (s : AppState) (o : FetchOutcome (Parsed AuthBody)) :
    AppState × Option String :=
  handleAuth "Registration failed" "Registration failed. Please try again." s o

/-- The function `handleLogout` (App.jsx lines 126 to 130). -/
def handleLogout (s : AppState) : AppState :=
  { s with storage := none, token := none, user := none }

/-- The session as it evolves in time: the cells of `App` and the number of
profile requests that `fetchUserProfile` has sent and whose response has not
arrived yet. -/
structure Session where
  app : AppState
  pending : Nat
  deriving DecidableEq, Repr

/-- The effect of App.jsx lines 21 to 25, which React runs after a render in
which `token` differs from its value `before`: when the new token is truthy,
`fetchUserProfile` sends its request. -/
def tokenEffect (before : Option String) (s : Session) : Session :=
  if s.app.token ≠ before ∧ truthy s.app.token = true then
    { s with pending := s.pending + 1 }
  else s

/-- The session when `App` mounts: the effect runs once, on the token read from
`localStorage`. -/
def mount (stored : Option String) : Session :=
  { app := initialState stored, pending := if truthy stored then 1 else 0 }

/-- Something that happens to the session: the response of a login or register
request arrives, the response of a pending profile request arrives, or the user
logs out. -/
inductive SessionEvent where
  | login (o : FetchOutcome (Parsed AuthBody))
  | register (o : FetchOutcome (Parsed AuthBody))
  | verifySession (o : FetchOutcome (Parsed User))
  | logout
  deriving DecidableEq, Repr

/-- One transition of the session.  Each handler writes to the state the
application is in when its response arrives, whatever happened since the
request was sent; a profile response can arrive only while a profile request is
pending; after the writes the effect on `token` runs. -/
def step (s : Session) (e : SessionEvent) : Session :=
  match e with
  | SessionEvent.login o =>
    tokenEffect s.app.token { s with app := (handleLogin s.app o).1 }
  | SessionEvent.register o =>
    tokenEffect s.app.token { s with app := (handleRegister s.app o).1 }
  | SessionEvent.verifySession o =>
    if s.pending = 0 then s
    else
      tokenEffect s.app.token
        { app := fetchUserProfile s.app o, pending := s.pending - 1 }
  | SessionEvent.logout =>
    tokenEffect s.app.token { s with app := handleLogout s.app }

/-- The session after a sequence of events. -/
def run (s : Session) (es : List SessionEvent) : Session :=
  es.foldl step s

/-- Whether a profile request failed: it threw or came back with a non-success
status. -/
def profileFailed (o : FetchOutcome (Parsed User)) : Bool :=
  match o with
  | FetchOutcome.threw => true
  | FetchOutcome.resolved response => !response.ok

/-- Whether a login or register request succeeded with a body of the shape
`{access_token, user}`. -/
def authSucceeded (o : FetchOutcome (Parsed AuthBody)) : Bool :=
  match o with
  | FetchOutcome.threw => false
  | FetchOutcome.resolved response =>
    response.ok &&
      (match response.json with
       | some (Parsed.fields data) => data.access_token.isSome && data.user.isSome
       | _ => false)

/-- Whether a login or register request failed: it threw or came back with a
non-success status. -/
def authFailed (o : FetchOutcome (Parsed AuthBody)) : Bool :=
  match o with
  | FetchOutcome.threw => true
  | FetchOutcome.resolved response => !response.ok

/-- Whether a profile response makes `fetchUserProfile` call `setUser` with a
user: a success status and a body that parses to one. -/
def profileSetsUser (o : FetchOutcome (Parsed User)) : Bool :=
  match o with
  | FetchOutcome.threw => false
  | FetchOutcome.resolved response =>
    response.ok &&
      (match response.json with
       | some (Parsed.fields _) => true
       | _ => false)

/-- Whether a profile response makes `fetchUserProfile` clear the token: the
request threw, the status is not a success, or the body does not parse. -/
def profileClearsToken (o : FetchOutcome (Parsed User)) : Bool :=
  match o with
  | FetchOutcome.threw => true
  | FetchOutcome.resolved response => !response.ok || response.json.isNone

/-- Whether a login or register outcome keeps to the service contract: a body
that comes with a success status and has fields has a non-empty `access_token`
and a `user`. -/
def authConforms (o : FetchOutcome (Parsed AuthBody)) : Bool :=
  match o with
  | FetchOutcome.threw => true
  | FetchOutcome.resolved response =>
    match response.json with
    | some (Parsed.fields data) =>
      !response.ok || (truthy data.access_token && data.user.isSome)
    | _ => true

/-- Whether an event is admitted in session `s`: login and register outcomes
keep to the service contract; a profile response that sets the user arrives
only while a token is present, and one that clears the token only while no user
is populated. -/
def admissibleAt (s : Session) (e : SessionEvent) : Bool :=
  match e with
  | SessionEvent.login o => authConforms o
  | SessionEvent.register o => authConforms o
  | SessionEvent.verifySession o =>
    s.pending == 0 ||
      ((!profileSetsUser o || truthy s.app.token) &&
        (!profileClearsToken o || s.app.user.isNone))
  | SessionEvent.logout => true

/-- Whether every event of the sequence is admitted in the session it arrives
in, starting from `s`. -/
def admissible (s : Session) (es : List SessionEvent) : Bool :=
  match es with
  | [] => true
  | e :: rest => admissibleAt s e && admissible (step s e) rest

/-! ## Data calls of the components

The request a component sends (with the bearer token it received as a prop) is
represented by the outcome of its `fetch`.  A step of a `try` block is an
`Except`: `Except.error s` says the step threw when the state cells had reached
`s`, which is where the `catch` handler takes over. -/

/-- Awaiting `fetch` inside a `try` block entered at state `s`. -/
def awaitFetch {β : Type} (s : DashboardState) (o : FetchOutcome β) :
    Except DashboardState (Response β) :=
  match o with
  | FetchOutcome.threw => Except.error s
  | FetchOutcome.resolved response => Except.ok response

/-- Awaiting `response.json()` inside a `try` block at state `s`. -/
def awaitJson {β : Type} (s : DashboardState) (response : Response β) :
    Except DashboardState β :=
  match response.json with
  | some data => Except.ok data
  | none => Except.error s

/-- The outcomes of the five requests `fetchData` issues, in the order it
issues them. -/
structure DashboardFetches where
  periods : FetchOutcome (List PeriodRecord)
  ovulations : FetchOutcome (List OvulationRecord)
  periodPrediction : FetchOutcome Forecast
  ovulationPrediction : FetchOutcome Forecast
  stats : FetchOutcome CycleStats
  deriving DecidableEq, Repr

/-- State of `Dashboard` when it mounts (Dashboard.jsx lines 11 to 15). -/
def initialDashboard : DashboardState :=
  { periods := [], ovulations := [],
    predictions := { period := none, ovulation := none },
    stats := { average_cycle_length := none, average_period_length := none,
               total_periods := none, cycle_regularity := none },
    loading := true }

/-- The part "Fetch periods" of `fetchData` (Dashboard.jsx lines 27 to 32). -/
def fetchPeriods (s : DashboardState) (o : FetchOutcome (List PeriodRecord)) :
    Except DashboardState DashboardState :=
  (awaitFetch s o).bind fun periodsResponse =>
    if periodsResponse.ok then
      (awaitJson s periodsResponse).bind fun periodsData =>
        Except.ok { s with periods := periodsData }
    else Except.ok s

/-- The part "Fetch ovulations" of `fetchData` (Dashboard.jsx lines 34 to 39). -/
def fetchOvulations (s : DashboardState) (o : FetchOutcome (List OvulationRecord)) :
    Except DashboardState DashboardState :=
  (awaitFetch s o).bind fun ovulationsResponse =>
    if ovulationsResponse.ok then
      (awaitJson s ovulationsResponse).bind fun ovulationsData =>
        Except.ok { s with ovulations := ovulationsData }
    else Except.ok s

/-- The part "Fetch predictions" of `fetchData` (Dashboard.jsx lines 41 to 52):
both requests are awaited, then each successful body is stored under its key of
a fresh object, which replaces the `predictions` cell. -/
def fetchPredictions (s : DashboardState) (op oo : FetchOutcome Forecast) :
    Except DashboardState DashboardState :=
  (awaitFetch s op).bind fun periodPredictionResponse =>
  (awaitFetch s oo).bind fun ovulationPredictionResponse =>
  (if periodPredictionResponse.ok then
      (awaitJson s periodPredictionResponse).bind fun data => Except.ok (some data)
    else Except.ok none).bind fun period =>
  (if ovulationPredictionResponse.ok then
      (awaitJson s ovulationPredictionResponse).bind fun data => Except.ok (some data)
    else Except.ok none).bind fun ovulation =>
  Except.ok { s with predictions := { period := period, ovulation := ovulation } }

/-- The part "Fetch cycle stats" of `fetchData` (Dashboard.jsx lines 54 to 59). -/
def fetchStats (s : DashboardState) (o : FetchOutcome CycleStats) :
    Except DashboardState DashboardState :=
  (awaitFetch s o).bind fun statsResponse =>
    if statsResponse.ok then
      (awaitJson s statsResponse).bind fun statsData =>
        Except.ok { s with stats := statsData }
    else Except.ok s

/-- The `try` block of `fetchData` (Dashboard.jsx lines 22 to 60). -/
def fetchDataTry (s : DashboardState) (f : DashboardFetches) :
    Except DashboardState DashboardState :=
  (fetchPeriods s f.periods).bind fun s1 =>
  (fetchOvulations s1 f.ovulations).bind fun s2 =>
  (fetchPredictions s2 f.periodPrediction f.ovulationPrediction).bind fun s3 =>
  fetchStats s3 f.stats

/-- The function `fetchData` (Dashboard.jsx lines 21 to 66): the `catch` handler
only logs, and `finally` clears `loading`, so nothing is thrown to the caller. -/
def fetchData (s : DashboardState) (f : DashboardFetches) : DashboardState :=
  match fetchDataTry s f with
  | Except.ok s1 => { s1 with loading := false }
  | Except.error s1 => { s1 with loading := false }

/-- Whether a request resolved and, if its status is a success, carried a body
that parses: the step that awaits it does not throw. -/
def settles {β : Type} (o : FetchOutcome β) : Bool :=
  match o with
  | FetchOutcome.threw => false
  | FetchOutcome.resolved response => !response.ok || response.json.isSome

/-- The state cells of a form component: its `formData` and `loading`. -/
structure FormState (α : Type) where
  formData : α
  loading : Bool
  deriving DecidableEq, Repr

/-- The parsed JSON body of a create response: the field the handlers read. -/
structure SubmitBody where
  error : FieldValue
  deriving DecidableEq, Repr

/-- What a `handleSubmit` does: the state cells after the call, the body it
sent, the text passed to `alert` and the path passed to `navigate`, if any. -/
structure SubmitEffect (α : Type) where
  state : FormState α
  request : JsonObject
  alert : Option String
  navigate : Option String
  deriving DecidableEq, Repr

/-- Body shared by the two `handleSubmit` functions, which differ in the payload
they build, in the endpoint and in their messages only.  The body is read only
when the status is not a success, and reading `error` of a `null` body throws
into the `catch` branch. -/
def handleCreate {α : Type} (submitData : α → JsonObject)
    (success fallback retry : String) (s : FormState α)
    (o : FetchOutcome (Parsed SubmitBody)) : SubmitEffect α :=
  let s1 : FormState α := { s with loading := true }
  let request := submitData s1.formData
  match o with
  | FetchOutcome.threw =>
    { state := { s1 with loading := false }, request := request,
      alert := some retry, navigate := none }
  | FetchOutcome.resolved response =>
    match response.json with
    | none =>
      { state := { s1 with loading := false }, request := request,
        alert := some retry, navigate := none }
    | some data =>
      if response.ok then
        { state := { s1 with loading := false }, request := request,
          alert := some success, navigate := some "/" }
      else
        match data with
        | Parsed.null =>
          { state := { s1 with loading := false }, request := request,
            alert := some retry, navigate := none }
        | Parsed.fields body =>
          { state := { s1 with loading := false }, request := request,
            alert := some (orElse body.error fallback), navigate := none }

/-- The function `handleSubmit` of `PeriodForm` (PeriodForm.jsx lines 38 to 77)
on the outcome of its request to `/periods`. -/
def PeriodForm.handleSubmit (s : FormState PeriodFormData)
    (o : FetchOutcome (Parsed SubmitBody)) : SubmitEffect PeriodFormData :=
  handleCreate periodSubmitData "Period added successfully!" "Failed to add period"
    "Failed to add period. Please try again." s o

/-- The function `handleSubmit` of `OvulationForm` (OvulationForm.jsx lines 38
to 73) on the outcome of its request to `/ovulation`. -/
def OvulationForm.handleSubmit (s : FormState OvulationFormData)
    (o : FetchOutcome (Parsed SubmitBody)) : SubmitEffect OvulationFormData :=
  handleCreate ovulationSubmitData "Ovulation data added successfully!"
    "Failed to add ovulation data" "Failed to add ovulation data. Please try again." s o

/-- Whether a create request failed: it threw or came back with a non-success
status. -/
def submitFailed (o : FetchOutcome (Parsed SubmitBody)) : Bool :=
  match o with
  | FetchOutcome.threw => true
  | FetchOutcome.resolved response => !response.ok

/-- The application: the session cells of `App` and the cells of the components
it routes to, each of which receives the token as its only prop (App.jsx lines
159 to 161). -/
structure AppWorld where
  session : AppState
  dashboard : DashboardState
  periodForm : FormState PeriodFormData
  ovulationForm : FormState OvulationFormData
  deriving DecidableEq, Repr

/-- A call a handler makes: to a state setter of its component, to the browser
(`console.error`, `alert`, `navigate`), or to what holds the session
(`setToken`, `setUser`, `localStorage.setItem` and `removeItem` on `token`). -/
inductive Effect where
  | setPeriods (periodsData : List PeriodRecord)
  | setOvulations (ovulationsData : List OvulationRecord)
  | setPredictions (predictions : Predictions)
  | setStats (statsData : CycleStats)
  | setLoading (loading : Bool)
  | consoleError (label : String)
  | alert (message : String)
  | navigate (path : String)
  | setToken (token : Option String)
  | setUser (user : Option User)
  | storageSetItem (value : String)
  | storageRemoveItem
  deriving DecidableEq, Repr

/-- The component a handler runs in; `setLoading` is the setter of that
component's own `loading` cell. -/
inductive Component where
  | app
  | dashboard
  | periodForm
  | ovulationForm
  deriving DecidableEq, Repr

/-- What a call made in component `c` does to the session cells. -/
def applySession (c : Component) (s : AppState) (e : Effect) : AppState :=
  match e with
  | Effect.setToken token => { s with token := token }
  | Effect.setUser user => { s with user := user }
  | Effect.storageSetItem value => { s with storage := some value }
  | Effect.storageRemoveItem => { s with storage := none }
  | Effect.setLoading loading =>
    if c = Component.app then { s with loading := loading } else s
  | _ => s

/-- What a call made in the dashboard does to the dashboard cells. -/
def applyDashboard (s : DashboardState) (e : Effect) : DashboardState :=
  match e with
  | Effect.setPeriods periodsData => { s with periods := periodsData }
  | Effect.setOvulations ovulationsData => { s with ovulations := ovulationsData }
  | Effect.setPredictions predictions => { s with predictions := predictions }
  | Effect.setStats statsData => { s with stats := statsData }
  | Effect.setLoading loading => { s with loading := loading }
  | _ => s

/-- What a call made in a form does to the cells of that form. -/
def applyForm {α : Type} (s : FormState α) (e : Effect) : FormState α :=
  match e with
  | Effect.setLoading loading => { s with loading := loading }
  | _ => s

/-- What a call made in component `c` does to the application. -/
def applyEffect (c : Component) (w : AppWorld) (e : Effect) : AppWorld :=
  { session := applySession c w.session e,
    dashboard := if c = Component.dashboard then applyDashboard w.dashboard e else w.dashboard,
    periodForm := if c = Component.periodForm then applyForm w.periodForm e else w.periodForm,
    ovulationForm :=
      if c = Component.ovulationForm then applyForm w.ovulationForm e else w.ovulationForm }

/-- The application after the calls `es`, made in order in component `c`. -/
def runEffects (c : Component) (w : AppWorld) (es : List Effect) : AppWorld :=
  es.foldl (applyEffect c) w

/-- Whether a call leaves the session alone when made outside `App`: it is none
of `setToken`, `setUser`, `localStorage.setItem`, `localStorage.removeItem`. -/
def Effect.keepsSession (e : Effect) : Bool :=
  match e with
  | Effect.setToken _ => false
  | Effect.setUser _ => false
  | Effect.storageSetItem _ => false
  | Effect.storageRemoveItem => false
  | _ => true

/-- The calls a stretch of a `try` block makes, and whether it ends by
throwing. -/
structure Steps where
  effects : List Effect
  threw : Bool
  deriving DecidableEq, Repr

/-- Two stretches of a `try` block in sequence: the second runs only if the
first did not throw. -/
def Steps.andThen (a b : Steps) : Steps :=
  if a.threw then a else { effects := a.effects ++ b.effects, threw := b.threw }

/-- Calls of the part "Fetch periods" of `fetchData` (lines 27 to 32). -/
def fetchPeriodsCalls (o : FetchOutcome (List PeriodRecord)) : Steps :=
  match o with
  | FetchOutcome.threw => { effects := [], threw := true }
  | FetchOutcome.resolved periodsResponse =>
    if periodsResponse.ok then
      match periodsResponse.json with
      | some periodsData => { effects := [Effect.setPeriods periodsData], threw := false }
      | none => { effects := [], threw := true }
    else { effects := [], threw := false }

/-- Calls of the part "Fetch ovulations" of `fetchData` (lines 34 to 39). -/
def fetchOvulationsCalls (o : FetchOutcome (List OvulationRecord)) : Steps :=
  match o with
  | FetchOutcome.threw => { effects := [], threw := true }
  | FetchOutcome.resolved ovulationsResponse =>
    if ovulationsResponse.ok then
      match ovulationsResponse.json with
      | some ovulationsData =>
        { effects := [Effect.setOvulations ovulationsData], threw := false }
      | none => { effects := [], threw := true }
    else { effects := [], threw := false }

/-- A forecast body as the part "Fetch predictions" reads it: `none` when
reading it throws, `some none` when the status is not a success and the key is
left out. -/
def forecastEntry (response : Response Forecast) : Option (Option Forecast) :=
  if response.ok then response.json.map some else some none

/-- Calls of the part "Fetch predictions" of `fetchData` (lines 41 to 52). -/
def fetchPredictionsCalls (op oo : FetchOutcome Forecast) : Steps :=
  match op, oo with
  | FetchOutcome.resolved periodPredictionResponse,
    FetchOutcome.resolved ovulationPredictionResponse =>
    match forecastEntry periodPredictionResponse,
          forecastEntry ovulationPredictionResponse with
    | some period, some ovulation =>
      { effects := [Effect.setPredictions { period := period, ovulation := ovulation }],
        threw := false }
    | _, _ => { effects := [], threw := true }
  | _, _ => { effects := [], threw := true }

/-- Calls of the part "Fetch cycle stats" of `fetchData` (lines 54 to 59). -/
def fetchStatsCalls (o : FetchOutcome CycleStats) : Steps :=
  match o with
  | FetchOutcome.threw => { effects := [], threw := true }
  | FetchOutcome.resolved statsResponse =>
    if statsResponse.ok then
      match statsResponse.json with
      | some statsData => { effects := [Effect.setStats statsData], threw := false }
      | none => { effects := [], threw := true }
    else { effects := [], threw := false }

/-- Every call `fetchData` makes (Dashboard.jsx lines 21 to 66), in order: the
setters of the `try` block up to the first throw, `console.error` if it threw,
and `setLoading(false)` from `finally`. -/
def fetchDataCalls (f : DashboardFetches) : List Effect :=
  let tried :=
    (fetchPeriodsCalls f.periods).andThen
      ((fetchOvulationsCalls f.ovulations).andThen
        ((fetchPredictionsCalls f.periodPrediction f.ovulationPrediction).andThen
          (fetchStatsCalls f.stats)))
  if tried.threw then
    tried.effects ++ [Effect.consoleError "Error fetching data:", Effect.setLoading false]
  else tried.effects ++ [Effect.setLoading false]

/-- Every call a `handleSubmit` makes, in order (PeriodForm.jsx lines 38 to 77,
OvulationForm.jsx lines 38 to 73). -/
def handleCreateCalls (success fallback retry label : String)
    (o : FetchOutcome (Parsed SubmitBody)) : List Effect :=
  let caught := [Effect.consoleError label, Effect.alert retry]
  let tried :=
    match o with
    | FetchOutcome.threw => caught
    | FetchOutcome.resolved response =>
      match response.json with
      | none => caught
      | some data =>
        if response.ok then [Effect.alert success, Effect.navigate "/"]
        else
          match data with
          | Parsed.null => caught
          | Parsed.fields body => [Effect.alert (orElse body.error fallback)]
  [Effect.setLoading true] ++ tried ++ [Effect.setLoading false]

/-- Every call `handleSubmit` of `PeriodForm` makes. -/
def PeriodForm.handleSubmitCalls (o : FetchOutcome (Parsed SubmitBody)) : List Effect :=
  handleCreateCalls "Period added successfully!" "Failed to add period"
    "Failed to add period. Please try again." "Error adding period:" o

/-- Every call `handleSubmit` of `OvulationForm` makes. -/
def OvulationForm.handleSubmitCalls (o : FetchOutcome (Parsed SubmitBody)) : List Effect :=
  handleCreateCalls "Ovulation data added successfully!" "Failed to add ovulation data"
    "Failed to add ovulation data. Please try again." "Error adding ovulation data:" o

/-- The dashboard after a stretch of a `try` block entered at `s`, as an
`Except` that tells whether the stretch threw. -/
def Steps.run (t : Steps) (s : DashboardState) : Except DashboardState DashboardState :=
  if t.threw then Except.error (t.effects.foldl applyDashboard s)
  else Except.ok (t.effects.foldl applyDashboard s)

/-- The text a call shows in an `alert` box, if it is one. -/
def Effect.alertText (e : Effect) : Option String :=
  match e with
  | Effect.alert message => some message
  | _ => none

/-- An authenticated data call with the outcomes of its requests: the
dashboard's `fetchData` (list periods, list ovulations, both forecasts,
statistics) and the two create calls. -/
inductive DataCall where
  | fetchData (f : DashboardFetches)
  | createPeriod (o : FetchOutcome (Parsed SubmitBody))
  | createOvulation (o : FetchOutcome (Parsed SubmitBody))
  deriving DecidableEq, Repr

/-- The application after a data call: the calls of the handler, made in its
component. -/
def dataCall (w : AppWorld) (c : DataCall) : AppWorld :=
  match c with
  | DataCall.fetchData f => runEffects Component.dashboard w (fetchDataCalls f)
  | DataCall.createPeriod o =>
    runEffects Component.periodForm w (PeriodForm.handleSubmitCalls o)
  | DataCall.createOvulation o =>
    runEffects Component.ovulationForm w (OvulationForm.handleSubmitCalls o)

/-! ## Lemmas on whole-day differences -/

theorem MS_PER_DAY_pos : 0 < MS_PER_DAY := by decide

/-- A difference that holds `d` full days and less than `d + 1` counts as `d`. -/
theorem tdiv_ms_eq_of_between (x d : Int) (h0 : 0 ≤ d)
    (hlo : d * MS_PER_DAY ≤ x) (hhi : x < (d + 1) * MS_PER_DAY) :
    x.tdiv MS_PER_DAY = d := by
  unfold MS_PER_DAY at *
  have hx : 0 ≤ x := by omega
  rw [Int.tdiv_eq_ediv hx (by decide)]
  omega

/-- A difference that is zero or negative never counts as a positive number of
days. -/
theorem tdiv_ms_nonpos_of_nonpos (x : Int) (hx : x ≤ 0) :
    x.tdiv MS_PER_DAY ≤ 0 := by
  have h : x = -(-x) := by omega
  rw [h, Int.neg_tdiv]
  have : 0 ≤ (-x).tdiv MS_PER_DAY :=
    Int.tdiv_nonneg (by omega) (Int.le_of_lt MS_PER_DAY_pos)
  omega

theorem differenceInDays_of_between (l r d : Int) (h0 : 0 ≤ d)
    (hlo : r + d * MS_PER_DAY ≤ l) (hhi : l < r + (d + 1) * MS_PER_DAY) :
    differenceInDays (some l) (some r) = some d := by
  simp only [differenceInDays]
  rw [tdiv_ms_eq_of_between (l - r) d h0 (by omega) (by omega)]

/-! ## Cycle phase -/

/-- Claim C1: when the first period record starts `d` whole days before `today`
(at least `d` full days and less than `d + 1` have passed since its parsed
start), `getPhaseInfo` answers Menstrual for `0 ≤ d ≤ 7`, Follicular for
`8 ≤ d ≤ 14`, Ovulation for `15 ≤ d ≤ 21` and Luteal for `22 ≤ d`, whatever the
rest of the list and of the dashboard state is. -/
theorem getPhaseInfo_phase_of_whole_days (parseISO : String → Option Int)
    (today start d : Int) (st : DashboardState) (p : PeriodRecord)
    (rest : List PeriodRecord)
    (hperiods : st.periods = p :: rest)
    (hparse : parseISO p.start_date = some start)
    (h0 : 0 ≤ d)
    (hlo : start + d * MS_PER_DAY ≤ today)
    (hhi : today < start + (d + 1) * MS_PER_DAY) :
    (d ≤ 7 → (getPhaseInfo parseISO today st).phase = "Menstrual") ∧
    (8 ≤ d ∧ d ≤ 14 → (getPhaseInfo parseISO today st).phase = "Follicular") ∧
    (15 ≤ d ∧ d ≤ 21 → (getPhaseInfo parseISO today st).phase = "Ovulation") ∧
    (22 ≤ d → (getPhaseInfo parseISO today st).phase = "Luteal") := by
  have hdiff := differenceInDays_of_between today start d h0 hlo hhi
  have hphase : (getPhaseInfo parseISO today st).phase =
      if d ≤ 7 then "Menstrual" else if d ≤ 14 then "Follicular"
      else if d ≤ 21 then "Ovulation" else "Luteal" := by
    simp only [getPhaseInfo, hperiods, List.head?_cons, hparse, hdiff, jsLe]
    by_cases h7 : d ≤ 7
    · simp [h7]
    · by_cases h14 : d ≤ 14
      · simp [h7, h14]
      · by_cases h21 : d ≤ 21
        · simp [h7, h14, h21]
        · simp [h7, h14, h21]
  refine ⟨?_, ?_, ?_, ?_⟩
  · intro h
    rw [hphase, if_pos h]
  · intro h
    rw [hphase, if_neg (by omega), if_pos h.2]
  · intro h
    rw [hphase, if_neg (by omega), if_neg (by omega), if_pos h.2]
  · intro h
    rw [hphase, if_neg (by omega), if_neg (by omega), if_neg (by omega)]

/-- The day 2024-03-01 is day 19783; ten o'clock on 2024-03-09, eight days
later, falls in the Follicular phase of a period started on 2024-03-01. -/
theorem getPhaseInfo_phase_of_whole_days_witness :
    (getPhaseInfo parseISODate (startOfDay 19791 + 36000000)
      { periods := [{ id := 1, start_date := "2024-03-01", end_date := none,
                      flow_intensity := some "medium", symptoms := none },
                    { id := 0, start_date := "2024-02-02", end_date := none,
                      flow_intensity := none, symptoms := none }],
        ovulations := [], predictions := { period := none, ovulation := none },
        stats := { average_cycle_length := none, average_period_length := none,
                   total_periods := none, cycle_regularity := none },
        loading := false }).phase = "Follicular" :=
  (getPhaseInfo_phase_of_whole_days parseISODate (startOfDay 19791 + 36000000)
    (startOfDay 19783) 8 _ _ _ rfl (by decide) (by decide) (by decide)
    (by decide)).2.1 ⟨by decide, by decide⟩

/-- Claim C2: with an empty period list `getPhaseInfo` answers Unknown with the
prompt to add a first period, whatever the date and the other state cells
(ovulations, predictions, statistics) are. -/
theorem getPhaseInfo_unknown_of_no_periods (parseISO : String → Option Int)
    (today : Int) (st : DashboardState) (hperiods : st.periods = []) :
    getPhaseInfo parseISO today st =
      { phase := "Unknown", description := "Add your first period to get started" } := by
  simp [getPhaseInfo, hperiods]

/-- With no period, a dashboard holding an ovulation record, both forecasts and
statistics still reports Unknown. -/
theorem getPhaseInfo_unknown_of_no_periods_witness :
    getPhaseInfo parseISODate (startOfDay 19791 + 36000000)
      { periods := [],
        ovulations := [{ id := 3, ovulation_date := "2024-02-16",
                         basal_body_temperature := some "98.4",
                         cervical_mucus := some "creamy", symptoms := none }],
        predictions :=
          { period := some { predicted_date := some "2024-03-29", confidence := some "high" },
            ovulation := some { predicted_date := some "2024-03-15", confidence := some "low" } },
        stats := { average_cycle_length := some "28", average_period_length := some "5",
                   total_periods := some 4, cycle_regularity := some "Regular" },
        loading := false } =
      { phase := "Unknown", description := "Add your first period to get started" } :=
  getPhaseInfo_unknown_of_no_periods parseISODate _ _ rfl

/-! ## Countdowns -/

/-- The count `getDaysUntil` returns for a date parsed to local midnight of the
day `n` days after the day of `today`: `n` at midnight sharp, `n - 1` at any
later time of the day. -/
theorem getDaysUntil_calendar_days_ahead (parseISO : String → Option Int)
    (day ms n : Int) (ds : String) (hds : ds ≠ "")
    (hparse : parseISO ds = some (startOfDay (day + n)))
    (hn : 1 ≤ n) (hms0 : 0 ≤ ms) (hms : ms < MS_PER_DAY) :
    getDaysUntil parseISO (startOfDay day + ms) (some ds) =
      some (if ms = 0 then n else n - 1) := by
  simp only [getDaysUntil, hds, if_false, hparse]
  by_cases h : ms = 0
  · rw [if_pos h]
    apply differenceInDays_of_between _ _ n (by omega)
    · unfold startOfDay MS_PER_DAY at *; subst h; ring_nf; omega
    · unfold startOfDay MS_PER_DAY at *; subst h; ring_nf; omega
  · rw [if_neg h]
    apply differenceInDays_of_between _ _ (n - 1) (by omega)
    · unfold startOfDay MS_PER_DAY at *; ring_nf; omega
    · unfold startOfDay MS_PER_DAY at *; ring_nf; omega

/-- Claim C3, evaluated at ten o'clock on 2024-03-01 (day 19783), both calls
of `getDaysUntil` reading that time: for the predicted date 2024-03-06, five
calendar days ahead, `getDaysUntil` returns 4 and the card reads "In 4 days";
for the predicted date 2024-03-02, one day ahead, it returns 0 and the card
reads "Expected now or overdue". -/
theorem getDaysUntil_five_days_ahead_at_ten :
    getDaysUntil parseISODate (startOfDay 19783 + 36000000) (some "2024-03-06") = some 4 ∧
    nextPeriodText parseISODate (startOfDay 19783 + 36000000) (startOfDay 19783 + 36000000)
      { period := some { predicted_date := some "2024-03-06", confidence := some "high" },
        ovulation := none } = some "In 4 days" ∧
    getDaysUntil parseISODate (startOfDay 19783 + 36000000) (some "2024-03-02") = some 0 ∧
    nextPeriodText parseISODate (startOfDay 19783 + 36000000) (startOfDay 19783 + 36000000)
      { period := some { predicted_date := some "2024-03-02", confidence := some "high" },
        ovulation := none } = some "Expected now or overdue" := by
  decide

/-- At midnight sharp on 2024-03-01 the condition counts one day to 2024-03-02;
the template reads the clock one millisecond later and counts none: the card
reads "In 0 days". -/
theorem nextPeriodText_zero_days_across_reads :
    nextPeriodText parseISODate (startOfDay 19783) (startOfDay 19783 + 1)
      { period := some { predicted_date := some "2024-03-02", confidence := some "high" },
        ovulation := none } = some "In 0 days" := by
  decide

theorem getDaysUntil_nonpos_of_due (parseISO : String → Option Int)
    (today t : Int) (ds : String) (hparse : parseISO ds = some t) (hle : t ≤ today) :
    jsGt (getDaysUntil parseISO today (some ds)) 0 = false := by
  unfold getDaysUntil
  by_cases hds : ds = ""
  · simp [hds, jsGt]
  · have h := tdiv_ms_nonpos_of_nonpos (t - today) (by omega)
    simp only [hds, if_false, hparse, differenceInDays, jsGt]
    exact decide_eq_false (by omega)

/-- The countdown paragraph is the label, or a count that the condition found
to be at least 1 and that the template computed again. -/
theorem countdownText_cases (parseISO : String → Option Int) (todayGuard todayText : Int)
    (ds : String) (t : Int) (label : String) (hds : ds ≠ "")
    (hparse : parseISO ds = some t) :
    countdownText parseISO todayGuard todayText (some ds) label = label ∨
    ∃ g n : Int, 1 ≤ g ∧ getDaysUntil parseISO todayGuard (some ds) = some g ∧
      getDaysUntil parseISO todayText (some ds) = some n ∧
      countdownText parseISO todayGuard todayText (some ds) label =
        "In " ++ toString n ++ " days" := by
  have hg : getDaysUntil parseISO todayGuard (some ds) =
      some ((t - todayGuard).tdiv MS_PER_DAY) := by
    simp [getDaysUntil, hds, hparse, differenceInDays]
  have hn : getDaysUntil parseISO todayText (some ds) =
      some ((t - todayText).tdiv MS_PER_DAY) := by
    simp [getDaysUntil, hds, hparse, differenceInDays]
  by_cases hpos : 0 < (t - todayGuard).tdiv MS_PER_DAY
  · right
    refine ⟨_, _, by omega, hg, hn, ?_⟩
    simp [countdownText, hg, hn, jsGt, hpos]
  · left
    simp [countdownText, hg, jsGt, hpos]

/-- What a forecast card shows: nothing (the date does not parse and `format`
throws), the prompt, the label, or a guarded count. -/
theorem forecastText_cases (parseISO : String → Option Int) (todayGuard todayText : Int)
    (pd : Option String) (label prompt : String) :
    forecastText parseISO todayGuard todayText pd label prompt = none ∨
    forecastText parseISO todayGuard todayText pd label prompt = some label ∨
    forecastText parseISO todayGuard todayText pd label prompt = some prompt ∨
    ∃ g n : Int, 1 ≤ g ∧ getDaysUntil parseISO todayGuard pd = some g ∧
      getDaysUntil parseISO todayText pd = some n ∧
      forecastText parseISO todayGuard todayText pd label prompt =
        some ("In " ++ toString n ++ " days") ∧
      (todayText = todayGuard → 1 ≤ n) := by
  cases pd with
  | none => right; right; left; rfl
  | some ds =>
    by_cases hds : ds = ""
    · right; right; left; simp [forecastText, hds]
    · cases hparse : parseISO ds with
      | none => left; simp [forecastText, hds, hparse]
      | some t =>
        rcases countdownText_cases parseISO todayGuard todayText ds t label hds hparse
          with h | ⟨g, n, hg1, hg, hn, htext⟩
        · right; left; simp [forecastText, hds, hparse, h]
        · right; right; right
          refine ⟨g, n, hg1, hg, hn, by simp [forecastText, hds, hparse, htext], ?_⟩
          intro heq
          rw [heq, hg] at hn
          have : g = n := by simpa using hn
          omega

theorem forecastText_of_due (parseISO : String → Option Int) (todayGuard todayText : Int)
    (ds : String) (t : Int) (label prompt : String) (hds : ds ≠ "")
    (hparse : parseISO ds = some t) (hle : t ≤ todayGuard) :
    forecastText parseISO todayGuard todayText (some ds) label prompt = some label := by
  have hg := getDaysUntil_nonpos_of_due parseISO todayGuard t ds hparse hle
  simp [forecastText, hds, hparse, countdownText, hg]

/-- Claim C4, as the code has it: a forecast whose predicted date parses to a
time not after the clock reading of the condition is reported with the fixed
label, "Expected now or overdue" on the period card and "Expected now or
passed" on the ovulation card; and whatever the inputs, a card shows nothing,
a fixed text, or "In n days" where the count the condition computed is at least
1 and `n` is the count the template computed, at least 1 whenever the template
reads the same clock value as the condition. -/
theorem countdown_label_or_guarded_count (parseISO : String → Option Int)
    (todayGuard todayText : Int) (predictions : Predictions) :
    (∀ (f : Forecast) (ds : String) (t : Int),
        predictions.period = some f → f.predicted_date = some ds → ds ≠ "" →
        parseISO ds = some t → t ≤ todayGuard →
        nextPeriodText parseISO todayGuard todayText predictions =
          some "Expected now or overdue") ∧
    (∀ (f : Forecast) (ds : String) (t : Int),
        predictions.ovulation = some f → f.predicted_date = some ds → ds ≠ "" →
        parseISO ds = some t → t ≤ todayGuard →
        nextOvulationText parseISO todayGuard todayText predictions =
          some "Expected now or passed") ∧
    (nextPeriodText parseISO todayGuard todayText predictions = none ∨
      nextPeriodText parseISO todayGuard todayText predictions =
        some "Expected now or overdue" ∨
      nextPeriodText parseISO todayGuard todayText predictions =
        some "Add more period data for predictions" ∨
      ∃ g n : Int, 1 ≤ g ∧
        getDaysUntil parseISO todayGuard
          (predictions.period.bind (fun f => f.predicted_date)) = some g ∧
        getDaysUntil parseISO todayText
          (predictions.period.bind (fun f => f.predicted_date)) = some n ∧
        nextPeriodText parseISO todayGuard todayText predictions =
          some ("In " ++ toString n ++ " days") ∧
        (todayText = todayGuard → 1 ≤ n)) ∧
    (nextOvulationText parseISO todayGuard todayText predictions = none ∨
      nextOvulationText parseISO todayGuard todayText predictions =
        some "Expected now or passed" ∨
      nextOvulationText parseISO todayGuard todayText predictions =
        some "Add period data for ovulation predictions" ∨
      ∃ g n : Int, 1 ≤ g ∧
        getDaysUntil parseISO todayGuard
          (predictions.ovulation.bind (fun f => f.predicted_date)) = some g ∧
        getDaysUntil parseISO todayText
          (predictions.ovulation.bind (fun f => f.predicted_date)) = some n ∧
        nextOvulationText parseISO todayGuard todayText predictions =
          some ("In " ++ toString n ++ " days") ∧
        (todayText = todayGuard → 1 ≤ n)) := by
  refine ⟨?_, ?_, ?_, ?_⟩
  · intro f ds t hf hpd hds hparse hle
    simp only [nextPeriodText, hf, hpd, Option.bind]
    exact forecastText_of_due parseISO todayGuard todayText ds t _ _ hds hparse hle
  · intro f ds t hf hpd hds hparse hle
    simp only [nextOvulationText, hf, hpd, Option.bind]
    exact forecastText_of_due parseISO todayGuard todayText ds t _ _ hds hparse hle
  · exact forecastText_cases parseISO todayGuard todayText _ _ _
  · exact forecastText_cases parseISO todayGuard todayText _ _ _

/-- At ten o'clock on 2024-03-01 a period forecast for 2024-02-28, two days
back, reads "Expected now or overdue". -/
theorem countdown_label_or_guarded_count_witness :
    nextPeriodText parseISODate (startOfDay 19783 + 36000000) (startOfDay 19783 + 36000001)
      { period := some { predicted_date := some "2024-02-28", confidence := some "high" },
        ovulation := some { predicted_date := some "2024-03-01", confidence := none } } =
      some "Expected now or overdue" :=
  (countdown_label_or_guarded_count parseISODate (startOfDay 19783 + 36000000)
    (startOfDay 19783 + 36000001)
    { period := some { predicted_date := some "2024-02-28", confidence := some "high" },
      ovulation := some { predicted_date := some "2024-03-01", confidence := none } }).1
    { predicted_date := some "2024-02-28", confidence := some "high" } "2024-02-28"
    (startOfDay 19781) rfl rfl (by decide) (by decide) (by decide)

/-! ## Submitted payloads -/

/-- Claim C5: the period payload carries `start_date` as entered, carries
`flow_intensity` and `symptoms` as entered when non-empty and as `null` when
empty, and has an `end_date` key, with the entered value, exactly when the
entered end date is non-empty; for the input with start date 2024-03-01 and the
other fields empty it is the three-key object without `end_date`. -/
theorem periodSubmitData_shape (formData : PeriodFormData) :
    getKey (periodSubmitData formData) "start_date" =
      some (JsonValue.str formData.start_date) ∧
    getKey (periodSubmitData formData) "flow_intensity" =
      some (if formData.flow_intensity = "" then JsonValue.null
            else JsonValue.str formData.flow_intensity) ∧
    getKey (periodSubmitData formData) "symptoms" =
      some (if formData.symptoms = "" then JsonValue.null
            else JsonValue.str formData.symptoms) ∧
    (hasKey (periodSubmitData formData) "end_date" = true ↔ formData.end_date ≠ "") ∧
    (formData.end_date ≠ "" →
      getKey (periodSubmitData formData) "end_date" =
        some (JsonValue.str formData.end_date)) ∧
    periodSubmitData
        { start_date := "2024-03-01", end_date := "", flow_intensity := "", symptoms := "" } =
      [("start_date", JsonValue.str "2024-03-01"), ("flow_intensity", JsonValue.null),
       ("symptoms", JsonValue.null)] := by
  refine ⟨?_, ?_, ?_, ?_, ?_, ?_⟩
  · by_cases he : formData.end_date = "" <;> simp [periodSubmitData, getKey, he]
  · by_cases he : formData.end_date = "" <;>
      simp [periodSubmitData, getKey, orNull, he]
  · by_cases he : formData.end_date = "" <;>
      simp [periodSubmitData, getKey, orNull, he]
  · by_cases he : formData.end_date = "" <;> simp [periodSubmitData, hasKey, he]
  · intro he
    simp [periodSubmitData, getKey, he]
  · decide

/-- A form with an end date and a flow intensity sends the end date under the
`end_date` key. -/
theorem periodSubmitData_shape_witness :
    getKey (periodSubmitData
        { start_date := "2024-03-01", end_date := "2024-03-05",
          flow_intensity := "heavy", symptoms := "" }) "end_date" =
      some (JsonValue.str "2024-03-05") :=
  (periodSubmitData_shape
    { start_date := "2024-03-01", end_date := "2024-03-05",
      flow_intensity := "heavy", symptoms := "" }).2.2.2.2.1 (by decide)

/-- Claim C6: the ovulation payload has the four keys `ovulation_date`,
`basal_body_temperature`, `cervical_mucus` and `symptoms` and no other, carries
`ovulation_date` as entered, carries `null` for each optional field entered
empty, and never carries an empty string for an optional field; for the input
with date 2024-03-01 and the other fields empty it is the four-key object with
three nulls. -/
theorem ovulationSubmitData_shape (formData : OvulationFormData) :
    (ovulationSubmitData formData).map Prod.fst =
      ["ovulation_date", "basal_body_temperature", "cervical_mucus", "symptoms"] ∧
    getKey (ovulationSubmitData formData) "ovulation_date" =
      some (JsonValue.str formData.ovulation_date) ∧
    (formData.basal_body_temperature = "" →
      getKey (ovulationSubmitData formData) "basal_body_temperature" =
        some JsonValue.null) ∧
    (formData.cervical_mucus = "" →
      getKey (ovulationSubmitData formData) "cervical_mucus" = some JsonValue.null) ∧
    (formData.symptoms = "" →
      getKey (ovulationSubmitData formData) "symptoms" = some JsonValue.null) ∧
    getKey (ovulationSubmitData formData) "basal_body_temperature" ≠
      some (JsonValue.str "") ∧
    getKey (ovulationSubmitData formData) "cervical_mucus" ≠ some (JsonValue.str "") ∧
    getKey (ovulationSubmitData formData) "symptoms" ≠ some (JsonValue.str "") ∧
    ovulationSubmitData
        { ovulation_date := "2024-03-01", basal_body_temperature := "",
          cervical_mucus := "", symptoms := "" } =
      [("ovulation_date", JsonValue.str "2024-03-01"),
       ("basal_body_temperature", JsonValue.null),
       ("cervical_mucus", JsonValue.null), ("symptoms", JsonValue.null)] := by
  refine ⟨?_, ?_, ?_, ?_, ?_, ?_, ?_, ?_, ?_⟩
  · simp [ovulationSubmitData]
  · simp [ovulationSubmitData, getKey]
  · intro h
    simp [ovulationSubmitData, getKey, h]
  · intro h
    simp [ovulationSubmitData, getKey, orNull, h]
  · intro h
    simp [ovulationSubmitData, getKey, orNull, h]
  · by_cases h : formData.basal_body_temperature = "" <;>
      simp [ovulationSubmitData, getKey, h]
  · by_cases h : formData.cervical_mucus = "" <;>
      simp [ovulationSubmitData, getKey, orNull, h]
  · by_cases h : formData.symptoms = "" <;>
      simp [ovulationSubmitData, getKey, orNull, h]
  · decide

/-- A form with a temperature and no mucus observation sends `null` under
`cervical_mucus`. -/
theorem ovulationSubmitData_shape_witness :
    getKey (ovulationSubmitData
        { ovulation_date := "2024-03-01", basal_body_temperature := "98.6",
          cervical_mucus := "", symptoms := "cramps" }) "cervical_mucus" =
      some JsonValue.null :=
  (ovulationSubmitData_shape
    { ovulation_date := "2024-03-01", basal_body_temperature := "98.6",
      cervical_mucus := "", symptoms := "cramps" }).2.2.2.1 rfl

/-! ## Session state -/

/-- A failed profile request at a state that holds a user: the token and the
stored token are gone, the user is still there. -/
theorem fetchUserProfile_401_keeps_user :
    profileFailed (FetchOutcome.resolved { status := 401, json := none }) = true ∧
    fetchUserProfile
        { user := some { id := 7, username := "ana" }, token := some "tok",
          loading := false, storage := some "tok" }
        (FetchOutcome.resolved { status := 401, json := none }) =
      { user := some { id := 7, username := "ana" }, token := none,
        loading := false, storage := none } := by
  decide

/-- Claim C7, as the code has it: when the profile request throws or comes back
with a non-success status, the state after `fetchUserProfile` has no token and
no stored token, and has no user if it had none before the call. -/
theorem fetchUserProfile_failure_clears_token (s : AppState)
    (o : FetchOutcome (Parsed User)) (hfail : profileFailed o = true) :
    (fetchUserProfile s o).token = none ∧
    (fetchUserProfile s o).storage = none ∧
    (s.user = none → (fetchUserProfile s o).user = none) := by
  cases o with
  | threw => exact ⟨rfl, rfl, fun h => h⟩
  | resolved response =>
    have hok : response.ok = false := by simpa [profileFailed] using hfail
    simp [fetchUserProfile, hok]

/-- Start-up with a stored token that the service rejects with status 422: the
token and the stored token are cleared and there is still no user. -/
theorem fetchUserProfile_failure_clears_token_witness :
    (fetchUserProfile (initialState (some "tok"))
        (FetchOutcome.resolved { status := 422, json := none })).token = none ∧
    (fetchUserProfile (initialState (some "tok"))
        (FetchOutcome.resolved { status := 422, json := none })).storage = none ∧
    (fetchUserProfile (initialState (some "tok"))
        (FetchOutcome.resolved { status := 422, json := none })).user = none :=
  have h := fetchUserProfile_failure_clears_token (initialState (some "tok"))
    (FetchOutcome.resolved { status := 422, json := none }) (by decide)
  ⟨h.1, h.2.1, h.2.2 rfl⟩

/-- Two runs that end with a user and without a token.  In the first a login
succeeds, its token starts a profile request, and the service rejects that
request with status 401.  In the second the application mounts with a stored
token, which starts a profile request; the user logs out while it is pending;
then its response arrives with status 200 and a user. -/
theorem run_user_without_token :
    ((run (mount none)
      [SessionEvent.login (FetchOutcome.resolved
          { status := 200,
            json := some (Parsed.fields
              { access_token := some "tok",
                user := some { id := 7, username := "ana" },
                error := FieldValue.absent }) }),
       SessionEvent.verifySession
          (FetchOutcome.resolved { status := 401, json := none })]).app.user =
        some { id := 7, username := "ana" } ∧
     (run (mount none)
      [SessionEvent.login (FetchOutcome.resolved
          { status := 200,
            json := some (Parsed.fields
              { access_token := some "tok",
                user := some { id := 7, username := "ana" },
                error := FieldValue.absent }) }),
       SessionEvent.verifySession
          (FetchOutcome.resolved { status := 401, json := none })]).app.token = none) ∧
    ((run (mount (some "tok"))
      [SessionEvent.logout,
       SessionEvent.verifySession (FetchOutcome.resolved
          { status := 200,
            json := some (Parsed.fields { id := 7, username := "ana" }) })]).app.user =
        some { id := 7, username := "ana" } ∧
     (run (mount (some "tok"))
      [SessionEvent.logout,
       SessionEvent.verifySession (FetchOutcome.resolved
          { status := 200,
            json := some (Parsed.fields { id := 7, username := "ana" }) })]).app.token =
        none) := by
  decide

theorem tokenEffect_app (before : Option String) (s : Session) :
    (tokenEffect before s).app = s.app := by
  unfold tokenEffect
  split <;> rfl

theorem handleAuth_preserves_user_needs_token (fallback retry : String) (s : AppState)
    (o : FetchOutcome (Parsed AuthBody)) (hc : authConforms o = true)
    (hinv : s.user.isSome = true → truthy s.token = true) :
    (handleAuth fallback retry s o).1.user.isSome = true →
      truthy (handleAuth fallback retry s o).1.token = true := by
  cases o with
  | threw => simpa [handleAuth] using hinv
  | resolved response =>
    cases hj : response.json with
    | none => simpa [handleAuth, hj] using hinv
    | some body =>
      cases body with
      | null => simpa [handleAuth, hj] using hinv
      | fields data =>
        by_cases hok : response.ok = true
        · simp only [authConforms, hj, hok, Bool.not_true, Bool.false_or,
            Bool.and_eq_true] at hc
          intro _
          simpa [handleAuth, hj, hok] using hc.1
        · simpa [handleAuth, hj, hok] using hinv

theorem fetchUserProfile_preserves_user_needs_token (s : AppState)
    (o : FetchOutcome (Parsed User))
    (hset : profileSetsUser o = true → truthy s.token = true)
    (hclear : profileClearsToken o = true → s.user = none) :
    (fetchUserProfile s o).user.isSome = true →
      truthy (fetchUserProfile s o).token = true := by
  cases o with
  | threw =>
    have hu : s.user = none := hclear rfl
    simp [fetchUserProfile, hu]
  | resolved response =>
    by_cases hok : response.ok = true
    · cases hj : response.json with
      | none =>
        have hu : s.user = none := hclear (by simp [profileClearsToken, hj])
        simp [fetchUserProfile, hok, hj, hu]
      | some body =>
        cases body with
        | null => simp [fetchUserProfile, hok, hj]
        | fields userData =>
          have ht : truthy s.token = true := hset (by simp [profileSetsUser, hok, hj])
          intro _
          simpa [fetchUserProfile, hok, hj] using ht
    · have hu : s.user = none := hclear (by simp [profileClearsToken, hok])
      simp [fetchUserProfile, hok, hu]

theorem step_preserves_user_needs_token (s : Session) (e : SessionEvent)
    (ha : admissibleAt s e = true)
    (hinv : s.app.user.isSome = true → truthy s.app.token = true) :
    (step s e).app.user.isSome = true → truthy (step s e).app.token = true := by
  cases e with
  | login o =>
    simp only [step, tokenEffect_app]
    exact handleAuth_preserves_user_needs_token _ _ s.app o
      (by simpa [admissibleAt] using ha) hinv
  | register o =>
    simp only [step, tokenEffect_app]
    exact handleAuth_preserves_user_needs_token _ _ s.app o
      (by simpa [admissibleAt] using ha) hinv
  | logout =>
    simp [step, tokenEffect_app, handleLogout]
  | verifySession o =>
    by_cases hp : s.pending = 0
    · simpa [step, hp] using hinv
    · simp only [step, hp, if_false, tokenEffect_app]
      simp only [admissibleAt, beq_iff_eq, hp, false_or, Bool.and_eq_true,
        Bool.or_eq_true, Bool.not_eq_true', Option.isNone_iff_eq_none] at ha
      apply fetchUserProfile_preserves_user_needs_token s.app o
      · intro h
        rcases ha.1 with h1 | h1
        · rw [h] at h1; cases h1
        · exact h1
      · intro h
        rcases ha.2 with h1 | h1
        · rw [h] at h1; cases h1
        · exact h1

theorem run_preserves_user_needs_token (es : List SessionEvent) :
    ∀ s : Session, admissible s es = true →
      (s.app.user.isSome = true → truthy s.app.token = true) →
      (run s es).app.user.isSome = true → truthy (run s es).app.token = true := by
  induction es with
  | nil => intro s _ hinv; simpa [run] using hinv
  | cons e rest ih =>
    intro s ha hinv
    simp only [admissible, Bool.and_eq_true] at ha
    have h := ih (step s e) ha.2 (step_preserves_user_needs_token s e ha.1 hinv)
    simpa [run] using h

/-- Claim C8, as the code has it: from the mount of the application (token read
from local storage, no user), after any sequence of login, register and profile
responses and logouts, each response arriving at any time after its request,
in which login and register bodies keep to the contract shape with a non-empty
token, a profile response that sets the user arrives only while a token is
present and one that clears the token only while no user is populated, a user
is populated only if a non-empty token is present. -/
theorem user_needs_token_of_admissible (stored : Option String)
    (es : List SessionEvent) (ha : admissible (mount stored) es = true) :
    (run (mount stored) es).app.user.isSome = true →
      truthy (run (mount stored) es).app.token = true :=
  run_preserves_user_needs_token es (mount stored) ha (by simp [mount, initialState])

/-- Start-up with a stale token that is rejected, then a login and the
successful verification its token starts: an admissible sequence, and its
final state has a user and a token. -/
theorem user_needs_token_of_admissible_witness :
    admissible (mount (some "old"))
      [SessionEvent.verifySession (FetchOutcome.resolved { status := 401, json := none }),
       SessionEvent.login (FetchOutcome.resolved
          { status := 200,
            json := some (Parsed.fields
              { access_token := some "tok",
                user := some { id := 7, username := "ana" },
                error := FieldValue.absent }) }),
       SessionEvent.verifySession (FetchOutcome.resolved
          { status := 200,
            json := some (Parsed.fields { id := 7, username := "ana" }) })] = true ∧
    ((run (mount (some "old"))
      [SessionEvent.verifySession (FetchOutcome.resolved { status := 401, json := none }),
       SessionEvent.login (FetchOutcome.resolved
          { status := 200,
            json := some (Parsed.fields
              { access_token := some "tok",
                user := some { id := 7, username := "ana" },
                error := FieldValue.absent }) }),
       SessionEvent.verifySession (FetchOutcome.resolved
          { status := 200,
            json := some (Parsed.fields { id := 7, username := "ana" }) })]).app.user.isSome
        = true →
     truthy (run (mount (some "old"))
      [SessionEvent.verifySession (FetchOutcome.resolved { status := 401, json := none }),
       SessionEvent.login (FetchOutcome.resolved
          { status := 200,
            json := some (Parsed.fields
              { access_token := some "tok",
                user := some { id := 7, username := "ana" },
                error := FieldValue.absent }) }),
       SessionEvent.verifySession (FetchOutcome.resolved
          { status := 200,
            json := some (Parsed.fields { id := 7, username := "ana" }) })]).app.token
        = true) :=
  ⟨by decide, user_needs_token_of_admissible (some "old") _ (by decide)⟩

/-- Claim C9: after a login or register request that comes back with a success
status and a body `{access_token, user}`, the token is `access_token`, the user
is `user` and the stored token is `access_token`, whatever the state before. -/
theorem handleAuth_success_sets_session (s : AppState)
    (response : Response (Parsed AuthBody))
    (data : AuthBody) (a : String) (u : User)
    (hok : response.ok = true) (hjson : response.json = some (Parsed.fields data))
    (htoken : data.access_token = some a) (huser : data.user = some u) :
    ((handleLogin s (FetchOutcome.resolved response)).1.token = some a ∧
      (handleLogin s (FetchOutcome.resolved response)).1.user = some u ∧
      (handleLogin s (FetchOutcome.resolved response)).1.storage = some a) ∧
    ((handleRegister s (FetchOutcome.resolved response)).1.token = some a ∧
      (handleRegister s (FetchOutcome.resolved response)).1.user = some u ∧
      (handleRegister s (FetchOutcome.resolved response)).1.storage = some a) := by
  simp [handleLogin, handleRegister, handleAuth, hok, hjson, htoken, huser, storedText]

/-- A login answered with status 200 replaces an earlier session. -/
theorem handleAuth_success_sets_session_witness :
    (handleLogin
        { user := some { id := 1, username := "bea" }, token := some "old",
          loading := false, storage := some "old" }
        (FetchOutcome.resolved
          { status := 200,
            json := some (Parsed.fields
              { access_token := some "tok",
                user := some { id := 7, username := "ana" },
                error := FieldValue.absent }) })).1.token = some "tok" :=
  (handleAuth_success_sets_session
    { user := some { id := 1, username := "bea" }, token := some "old",
      loading := false, storage := some "old" }
    { status := 200,
      json := some (Parsed.fields
        { access_token := some "tok", user := some { id := 7, username := "ana" },
          error := FieldValue.absent }) }
    { access_token := some "tok", user := some { id := 7, username := "ana" },
      error := FieldValue.absent }
    "tok" { id := 7, username := "ana" } (by decide) rfl rfl rfl).1.1

/-- Claim C10: when a login or register request throws or comes back with a
non-success status, the token, the user and the stored token after the call
are those before it. -/
theorem handleAuth_failure_keeps_session (s : AppState)
    (o : FetchOutcome (Parsed AuthBody)) (hfail : authFailed o = true) :
    ((handleLogin s o).1.token = s.token ∧ (handleLogin s o).1.user = s.user ∧
      (handleLogin s o).1.storage = s.storage) ∧
    ((handleRegister s o).1.token = s.token ∧ (handleRegister s o).1.user = s.user ∧
      (handleRegister s o).1.storage = s.storage) := by
  cases o with
  | threw => simp [handleLogin, handleRegister, handleAuth]
  | resolved response =>
    have hok : response.ok = false := by simpa [authFailed] using hfail
    cases hj : response.json with
    | none => simp [handleLogin, handleRegister, handleAuth, hj]
    | some body =>
      cases body <;> simp [handleLogin, handleRegister, handleAuth, hok, hj]

/-- A login rejected with status 401 leaves an existing session as it was. -/
theorem handleAuth_failure_keeps_session_witness :
    (handleLogin
        { user := some { id := 1, username := "bea" }, token := some "old",
          loading := false, storage := some "old" }
        (FetchOutcome.resolved
          { status := 401,
            json := some (Parsed.fields
              { access_token := none, user := none,
                error := FieldValue.str "Invalid credentials" }) })).1.token =
      some "old" :=
  (handleAuth_failure_keeps_session
    { user := some { id := 1, username := "bea" }, token := some "old",
      loading := false, storage := some "old" }
    (FetchOutcome.resolved
      { status := 401,
        json := some (Parsed.fields
          { access_token := none, user := none,
            error := FieldValue.str "Invalid credentials" }) })
    (by decide)).1.1

/-- Claim C11: `handleLogout` takes no outcome and, from every state, leaves no
token, no user and no stored token. -/
theorem handleLogout_clears_session (s : AppState) :
    (handleLogout s).token = none ∧ (handleLogout s).user = none ∧
    (handleLogout s).storage = none :=
  ⟨rfl, rfl, rfl⟩

/-! ## Dashboard fetches -/

theorem fetchPeriods_ok_of_settles (s : DashboardState)
    (o : FetchOutcome (List PeriodRecord)) (h : settles o = true) :
    ∃ s1, fetchPeriods s o = Except.ok s1 := by
  cases o with
  | threw => simp [settles] at h
  | resolved response =>
    by_cases hok : response.ok = true
    · cases hj : response.json with
      | none => simp [settles, hok, hj] at h
      | some data =>
        exact ⟨{ s with periods := data },
          by simp [fetchPeriods, awaitFetch, awaitJson, Except.bind, hok, hj]⟩
    · exact ⟨s, by simp [fetchPeriods, awaitFetch, Except.bind, hok]⟩

theorem fetchOvulations_ok_of_settles (s : DashboardState)
    (o : FetchOutcome (List OvulationRecord)) (h : settles o = true) :
    ∃ s1, fetchOvulations s o = Except.ok s1 := by
  cases o with
  | threw => simp [settles] at h
  | resolved response =>
    by_cases hok : response.ok = true
    · cases hj : response.json with
      | none => simp [settles, hok, hj] at h
      | some data =>
        exact ⟨{ s with ovulations := data },
          by simp [fetchOvulations, awaitFetch, awaitJson, Except.bind, hok, hj]⟩
    · exact ⟨s, by simp [fetchOvulations, awaitFetch, Except.bind, hok]⟩

/-- Whether it ends normally or throws, the statistics part leaves the
`predictions` cell as it found it. -/
theorem fetchStats_keeps_predictions (s : DashboardState) (o : FetchOutcome CycleStats) :
    (match fetchStats s o with
      | Except.ok t => t.predictions
      | Except.error t => t.predictions) = s.predictions := by
  cases o with
  | threw => rfl
  | resolved response =>
    by_cases hok : response.ok = true
    · cases hj : response.json <;>
        simp [fetchStats, awaitFetch, awaitJson, Except.bind, hok, hj]
    · simp [fetchStats, awaitFetch, Except.bind, hok]

/-- The predictions after `fetchData` when its first three parts end normally
in state `s3`. -/
theorem fetchData_predictions_of_parts (s s1 s2 s3 : DashboardState)
    (f : DashboardFetches)
    (h1 : fetchPeriods s f.periods = Except.ok s1)
    (h2 : fetchOvulations s1 f.ovulations = Except.ok s2)
    (h3 : fetchPredictions s2 f.periodPrediction f.ovulationPrediction = Except.ok s3) :
    (fetchData s f).predictions = s3.predictions := by
  have h := fetchStats_keeps_predictions s3 f.stats
  simp only [fetchData, fetchDataTry, h1, h2, h3, Except.bind]
  cases hst : fetchStats s3 f.stats with
  | ok t => simpa [hst] using h
  | error t => simpa [hst] using h

/-- A thrown periods request ends `fetchData` at once: every cell keeps its
value and only `loading` is cleared. -/
theorem fetchData_of_periods_threw (s : DashboardState) (f : DashboardFetches)
    (h : f.periods = FetchOutcome.threw) :
    fetchData s f = { s with loading := false } := by
  simp [fetchData, fetchDataTry, fetchPeriods, awaitFetch, Except.bind, h]

/-- On mount, a periods request that throws while the four other requests would
succeed: the dashboard ends with every cell empty, the fetched ovulations,
forecasts and statistics are not stored. -/
theorem fetchData_periods_threw_skips_rest :
    fetchData initialDashboard
      { periods := FetchOutcome.threw,
        ovulations := FetchOutcome.resolved
          { status := 200,
            json := some [{ id := 3, ovulation_date := "2024-02-16",
                            basal_body_temperature := none, cervical_mucus := none,
                            symptoms := none }] },
        periodPrediction := FetchOutcome.resolved
          { status := 200,
            json := some { predicted_date := some "2024-03-29", confidence := some "high" } },
        ovulationPrediction := FetchOutcome.resolved
          { status := 200,
            json := some { predicted_date := some "2024-03-15", confidence := some "low" } },
        stats := FetchOutcome.resolved
          { status := 200,
            json := some { average_cycle_length := some "28",
                           average_period_length := some "5",
                           total_periods := some 4,
                           cycle_regularity := some "Regular" } } } =
      { periods := [], ovulations := [],
        predictions := { period := none, ovulation := none },
        stats := { average_cycle_length := none, average_period_length := none,
                   total_periods := none, cycle_regularity := none },
        loading := false } := by
  decide

/-- Claim C12, as the code has it: when the periods request comes back with a
non-success status and the ovulations, both forecast and statistics requests
succeed, `fetchData` run on a dashboard without periods ends with periods
empty, with the fetched ovulations, both forecasts and statistics stored, and
with `loading` cleared. -/
theorem fetchData_periods_rejected (s : DashboardState) (f : DashboardFetches)
    (rp : Response (List PeriodRecord)) (ro : Response (List OvulationRecord))
    (rpp rop : Response Forecast) (rs : Response CycleStats)
    (ovulationsData : List OvulationRecord) (fp fo : Forecast) (statsData : CycleStats)
    (hs : s.periods = [])
    (hp : f.periods = FetchOutcome.resolved rp) (hpok : rp.ok = false)
    (ho : f.ovulations = FetchOutcome.resolved ro) (hook : ro.ok = true)
    (hoj : ro.json = some ovulationsData)
    (hpp : f.periodPrediction = FetchOutcome.resolved rpp) (hppok : rpp.ok = true)
    (hppj : rpp.json = some fp)
    (hop : f.ovulationPrediction = FetchOutcome.resolved rop) (hopok : rop.ok = true)
    (hopj : rop.json = some fo)
    (hst : f.stats = FetchOutcome.resolved rs) (hstok : rs.ok = true)
    (hstj : rs.json = some statsData) :
    fetchData s f =
      { periods := [], ovulations := ovulationsData,
        predictions := { period := some fp, ovulation := some fo },
        stats := statsData, loading := false } := by
  simp [fetchData, fetchDataTry, fetchPeriods, fetchOvulations, fetchPredictions,
    fetchStats, awaitFetch, awaitJson, Except.bind, hs, hp, hpok, ho, hook, hoj, hpp,
    hppok, hppj, hop, hopok, hopj, hst, hstok, hstj]

/-- On mount, a periods request rejected with status 500 and four successful
requests: periods stay empty and the rest is stored. -/
theorem fetchData_periods_rejected_witness :
    fetchData initialDashboard
      { periods := FetchOutcome.resolved { status := 500, json := none },
        ovulations := FetchOutcome.resolved
          { status := 200,
            json := some [{ id := 3, ovulation_date := "2024-02-16",
                            basal_body_temperature := none, cervical_mucus := none,
                            symptoms := none }] },
        periodPrediction := FetchOutcome.resolved
          { status := 200,
            json := some { predicted_date := some "2024-03-29", confidence := some "high" } },
        ovulationPrediction := FetchOutcome.resolved
          { status := 200,
            json := some { predicted_date := some "2024-03-15", confidence := some "low" } },
        stats := FetchOutcome.resolved
          { status := 200,
            json := some { average_cycle_length := some "28",
                           average_period_length := some "5",
                           total_periods := some 4,
                           cycle_regularity := some "Regular" } } } =
      { periods := [],
        ovulations := [{ id := 3, ovulation_date := "2024-02-16",
                         basal_body_temperature := none, cervical_mucus := none,
                         symptoms := none }],
        predictions :=
          { period := some { predicted_date := some "2024-03-29", confidence := some "high" },
            ovulation := some { predicted_date := some "2024-03-15", confidence := some "low" } },
        stats := { average_cycle_length := some "28", average_period_length := some "5",
                   total_periods := some 4, cycle_regularity := some "Regular" },
        loading := false } :=
  fetchData_periods_rejected initialDashboard _ _ _ _ _ _ _ _ _ _ rfl rfl (by decide)
    rfl (by decide) rfl rfl (by decide) rfl rfl (by decide) rfl rfl (by decide) rfl

/-- Two runs on mount in which the ovulation forecast arrives and is not
stored.  In the first the period forecast request throws while every other
request succeeds.  In the second the period forecast is rejected with status
404, and the periods request comes back with status 200 and a body that does
not parse, so that reading it throws before the forecasts are requested. -/
theorem fetchData_forecast_threw_drops_other :
    (fetchData initialDashboard
      { periods := FetchOutcome.resolved { status := 200, json := some [] },
        ovulations := FetchOutcome.resolved { status := 200, json := some [] },
        periodPrediction := FetchOutcome.threw,
        ovulationPrediction := FetchOutcome.resolved
          { status := 200,
            json := some { predicted_date := some "2024-03-15", confidence := some "low" } },
        stats := FetchOutcome.resolved
          { status := 200,
            json := some { average_cycle_length := some "28",
                           average_period_length := some "5",
                           total_periods := some 4,
                           cycle_regularity := some "Regular" } } }).predictions =
      { period := none, ovulation := none } ∧
    (fetchData initialDashboard
      { periods := FetchOutcome.resolved { status := 200, json := none },
        ovulations := FetchOutcome.resolved { status := 200, json := some [] },
        periodPrediction := FetchOutcome.resolved { status := 404, json := none },
        ovulationPrediction := FetchOutcome.resolved
          { status := 200,
            json := some { predicted_date := some "2024-03-15", confidence := some "low" } },
        stats := FetchOutcome.resolved
          { status := 200,
            json := some { average_cycle_length := some "28",
                           average_period_length := some "5",
                           total_periods := some 4,
                           cycle_regularity := some "Regular" } } }).predictions =
      { period := none, ovulation := none } := by
  decide

/-- Claim C13, as the code has it: in a run of `fetchData` in which the periods
part and the ovulations part do not throw (each request resolves, and a body
that comes with a success status parses), when one forecast request comes back
with a non-success status and the other succeeds, the `predictions` cell
afterwards holds the successful forecast under its key and nothing under the
other. -/
theorem fetchData_keeps_successful_forecast (s : DashboardState) (f : DashboardFetches)
    (hsp : settles f.periods = true) (hso : settles f.ovulations = true) :
    (∀ (rp ro : Response Forecast) (fo : Forecast),
        f.periodPrediction = FetchOutcome.resolved rp → rp.ok = false →
        f.ovulationPrediction = FetchOutcome.resolved ro → ro.ok = true →
        ro.json = some fo →
        (fetchData s f).predictions = { period := none, ovulation := some fo }) ∧
    (∀ (rp ro : Response Forecast) (fp : Forecast),
        f.periodPrediction = FetchOutcome.resolved rp → rp.ok = true →
        rp.json = some fp →
        f.ovulationPrediction = FetchOutcome.resolved ro → ro.ok = false →
        (fetchData s f).predictions = { period := some fp, ovulation := none }) := by
  obtain ⟨s1, h1⟩ := fetchPeriods_ok_of_settles s f.periods hsp
  obtain ⟨s2, h2⟩ := fetchOvulations_ok_of_settles s1 f.ovulations hso
  constructor
  · intro rp ro fo hp hpok ho hook hoj
    have h3 : fetchPredictions s2 f.periodPrediction f.ovulationPrediction =
        Except.ok { s2 with predictions := { period := none, ovulation := some fo } } := by
      simp [fetchPredictions, awaitFetch, awaitJson, Except.bind, hp, hpok, ho, hook, hoj]
    rw [fetchData_predictions_of_parts s s1 s2 _ f h1 h2 h3]
  · intro rp ro fp hp hpok hpj ho hook
    have h3 : fetchPredictions s2 f.periodPrediction f.ovulationPrediction =
        Except.ok { s2 with predictions := { period := some fp, ovulation := none } } := by
      simp [fetchPredictions, awaitFetch, awaitJson, Except.bind, hp, hpok, hpj, ho, hook]
    rw [fetchData_predictions_of_parts s s1 s2 _ f h1 h2 h3]

/-- On mount, with the periods request rejected, the period forecast rejected
with status 404 and the ovulation forecast delivered, the `predictions` cell
holds the ovulation forecast. -/
theorem fetchData_keeps_successful_forecast_witness :
    (fetchData initialDashboard
      { periods := FetchOutcome.resolved { status := 500, json := none },
        ovulations := FetchOutcome.resolved { status := 200, json := some [] },
        periodPrediction := FetchOutcome.resolved { status := 404, json := none },
        ovulationPrediction := FetchOutcome.resolved
          { status := 200,
            json := some { predicted_date := some "2024-03-15", confidence := some "low" } },
        stats := FetchOutcome.threw }).predictions =
      { period := none,
        ovulation := some { predicted_date := some "2024-03-15", confidence := some "low" } } :=
  (fetchData_keeps_successful_forecast initialDashboard
    { periods := FetchOutcome.resolved { status := 500, json := none },
      ovulations := FetchOutcome.resolved { status := 200, json := some [] },
      periodPrediction := FetchOutcome.resolved { status := 404, json := none },
      ovulationPrediction := FetchOutcome.resolved
        { status := 200,
          json := some { predicted_date := some "2024-03-15", confidence := some "low" } },
      stats := FetchOutcome.threw }
    (by decide) (by decide)).1
    { status := 404, json := none }
    { status := 200,
      json := some { predicted_date := some "2024-03-15", confidence := some "low" } }
    { predicted_date := some "2024-03-15", confidence := some "low" }
    rfl (by decide) rfl (by decide) rfl

/-! ## Data calls and the session -/

theorem applySession_of_keepsSession (c : Component) (hc : c ≠ Component.app)
    (s : AppState) (e : Effect) (h : e.keepsSession = true) : applySession c s e = s := by
  cases e <;> simp_all [applySession, Effect.keepsSession]

theorem runEffects_session (c : Component) (hc : c ≠ Component.app) (es : List Effect) :
    ∀ w : AppWorld, es.all Effect.keepsSession = true →
      (runEffects c w es).session = w.session := by
  induction es with
  | nil => intro w _; rfl
  | cons e rest ih =>
    intro w h
    simp only [List.all_cons, Bool.and_eq_true] at h
    have hstep : (applyEffect c w e).session = w.session := by
      simp [applyEffect, applySession_of_keepsSession c hc w.session e h.1]
    have := ih (applyEffect c w e) h.2
    simpa [runEffects, hstep] using this

theorem runEffects_dashboard (es : List Effect) :
    ∀ w : AppWorld,
      (runEffects Component.dashboard w es).dashboard = es.foldl applyDashboard w.dashboard := by
  induction es with
  | nil => intro w; rfl
  | cons e rest ih =>
    intro w
    have := ih (applyEffect Component.dashboard w e)
    simpa [runEffects, applyEffect] using this

theorem runEffects_periodForm (es : List Effect) :
    ∀ w : AppWorld,
      (runEffects Component.periodForm w es).periodForm = es.foldl applyForm w.periodForm := by
  induction es with
  | nil => intro w; rfl
  | cons e rest ih =>
    intro w
    have := ih (applyEffect Component.periodForm w e)
    simpa [runEffects, applyEffect] using this

theorem runEffects_ovulationForm (es : List Effect) :
    ∀ w : AppWorld,
      (runEffects Component.ovulationForm w es).ovulationForm =
        es.foldl applyForm w.ovulationForm := by
  induction es with
  | nil => intro w; rfl
  | cons e rest ih =>
    intro w
    have := ih (applyEffect Component.ovulationForm w e)
    simpa [runEffects, applyEffect] using this

theorem Steps.andThen_keepsSession (a b : Steps)
    (ha : a.effects.all Effect.keepsSession = true)
    (hb : b.effects.all Effect.keepsSession = true) :
    (a.andThen b).effects.all Effect.keepsSession = true := by
  unfold Steps.andThen
  split
  · exact ha
  · simp only [List.all_append, Bool.and_eq_true]
    exact ⟨ha, hb⟩

theorem fetchPeriodsCalls_keepsSession (o : FetchOutcome (List PeriodRecord)) :
    (fetchPeriodsCalls o).effects.all Effect.keepsSession = true := by
  cases o with
  | threw => rfl
  | resolved response =>
    by_cases hok : response.ok = true
    · cases hj : response.json <;> simp [fetchPeriodsCalls, hok, hj, Effect.keepsSession]
    · simp [fetchPeriodsCalls, hok]

theorem fetchOvulationsCalls_keepsSession (o : FetchOutcome (List OvulationRecord)) :
    (fetchOvulationsCalls o).effects.all Effect.keepsSession = true := by
  cases o with
  | threw => rfl
  | resolved response =>
    by_cases hok : response.ok = true
    · cases hj : response.json <;> simp [fetchOvulationsCalls, hok, hj, Effect.keepsSession]
    · simp [fetchOvulationsCalls, hok]

theorem fetchPredictionsCalls_keepsSession (op oo : FetchOutcome Forecast) :
    (fetchPredictionsCalls op oo).effects.all Effect.keepsSession = true := by
  cases op with
  | threw => rfl
  | resolved rp =>
    cases oo with
    | threw => rfl
    | resolved ro =>
      cases hp : forecastEntry rp <;> cases ho : forecastEntry ro <;>
        simp [fetchPredictionsCalls, hp, ho, Effect.keepsSession]

theorem fetchStatsCalls_keepsSession (o : FetchOutcome CycleStats) :
    (fetchStatsCalls o).effects.all Effect.keepsSession = true := by
  cases o with
  | threw => rfl
  | resolved response =>
    by_cases hok : response.ok = true
    · cases hj : response.json <;> simp [fetchStatsCalls, hok, hj, Effect.keepsSession]
    · simp [fetchStatsCalls, hok]

theorem finishCalls_keepsSession (tried : Steps)
    (h : tried.effects.all Effect.keepsSession = true) :
    (if tried.threw then
        tried.effects ++ [Effect.consoleError "Error fetching data:", Effect.setLoading false]
      else tried.effects ++ [Effect.setLoading false]).all Effect.keepsSession = true := by
  by_cases ht : tried.threw = true <;> simp [ht, List.all_append, h, Effect.keepsSession]

/-- None of the calls `fetchData` makes is a write to the session. -/
theorem fetchDataCalls_keepsSession (f : DashboardFetches) :
    (fetchDataCalls f).all Effect.keepsSession = true :=
  finishCalls_keepsSession _
    (Steps.andThen_keepsSession _ _ (fetchPeriodsCalls_keepsSession f.periods)
      (Steps.andThen_keepsSession _ _ (fetchOvulationsCalls_keepsSession f.ovulations)
        (Steps.andThen_keepsSession _ _
          (fetchPredictionsCalls_keepsSession f.periodPrediction f.ovulationPrediction)
          (fetchStatsCalls_keepsSession f.stats))))

/-- None of the calls a `handleSubmit` makes is a write to the session. -/
theorem handleCreateCalls_keepsSession (success fallback retry label : String)
    (o : FetchOutcome (Parsed SubmitBody)) :
    (handleCreateCalls success fallback retry label o).all Effect.keepsSession = true := by
  cases o with
  | threw => simp [handleCreateCalls, Effect.keepsSession]
  | resolved response =>
    cases hj : response.json with
    | none => simp [handleCreateCalls, hj, Effect.keepsSession]
    | some data =>
      by_cases hok : response.ok = true
      · simp [handleCreateCalls, hj, hok, Effect.keepsSession]
      · cases data <;> simp [handleCreateCalls, hj, hok, Effect.keepsSession]

theorem Steps.run_andThen (a b : Steps) (s : DashboardState) :
    (a.run s).bind (fun s1 => b.run s1) = (a.andThen b).run s := by
  by_cases ha : a.threw = true <;> by_cases hb : b.threw = true <;>
    simp [Steps.run, Steps.andThen, Except.bind, ha, hb, List.foldl_append]

theorem fetchPeriods_eq_calls (s : DashboardState) (o : FetchOutcome (List PeriodRecord)) :
    fetchPeriods s o = (fetchPeriodsCalls o).run s := by
  cases o with
  | threw => rfl
  | resolved response =>
    by_cases hok : response.ok = true
    · cases hj : response.json <;>
        simp [fetchPeriods, fetchPeriodsCalls, Steps.run, awaitFetch, awaitJson, Except.bind,
          applyDashboard, hok, hj]
    · simp [fetchPeriods, fetchPeriodsCalls, Steps.run, awaitFetch, Except.bind, hok]

theorem fetchOvulations_eq_calls (s : DashboardState)
    (o : FetchOutcome (List OvulationRecord)) :
    fetchOvulations s o = (fetchOvulationsCalls o).run s := by
  cases o with
  | threw => rfl
  | resolved response =>
    by_cases hok : response.ok = true
    · cases hj : response.json <;>
        simp [fetchOvulations, fetchOvulationsCalls, Steps.run, awaitFetch, awaitJson,
          Except.bind, applyDashboard, hok, hj]
    · simp [fetchOvulations, fetchOvulationsCalls, Steps.run, awaitFetch, Except.bind, hok]

theorem fetchPredictions_eq_calls (s : DashboardState) (op oo : FetchOutcome Forecast) :
    fetchPredictions s op oo = (fetchPredictionsCalls op oo).run s := by
  cases op with
  | threw => cases oo <;> rfl
  | resolved rp =>
    cases oo with
    | threw => rfl
    | resolved ro =>
      by_cases hp : rp.ok = true <;> by_cases ho : ro.ok = true <;>
        cases hpj : rp.json <;> cases hoj : ro.json <;>
        simp [fetchPredictions, fetchPredictionsCalls, forecastEntry, Steps.run, awaitFetch,
          awaitJson, Except.bind, applyDashboard, hp, ho, hpj, hoj]

theorem fetchStats_eq_calls (s : DashboardState) (o : FetchOutcome CycleStats) :
    fetchStats s o = (fetchStatsCalls o).run s := by
  cases o with
  | threw => rfl
  | resolved response =>
    by_cases hok : response.ok = true
    · cases hj : response.json <;>
        simp [fetchStats, fetchStatsCalls, Steps.run, awaitFetch, awaitJson, Except.bind,
          applyDashboard, hok, hj]
    · simp [fetchStats, fetchStatsCalls, Steps.run, awaitFetch, Except.bind, hok]

theorem finishCalls_run (tried : Steps) (s : DashboardState) :
    (match tried.run s with
      | Except.ok s1 => { s1 with loading := false }
      | Except.error s1 => { s1 with loading := false }) =
      (if tried.threw then
          tried.effects ++ [Effect.consoleError "Error fetching data:", Effect.setLoading false]
        else tried.effects ++ [Effect.setLoading false]).foldl applyDashboard s := by
  by_cases ht : tried.threw = true <;>
    simp [Steps.run, ht, List.foldl_append, applyDashboard]

/-- The state `fetchData` ends in is the state its calls lead to. -/
theorem fetchData_eq_calls (s : DashboardState) (f : DashboardFetches) :
    fetchData s f = (fetchDataCalls f).foldl applyDashboard s := by
  have htry : fetchDataTry s f =
      ((fetchPeriodsCalls f.periods).andThen
        ((fetchOvulationsCalls f.ovulations).andThen
          ((fetchPredictionsCalls f.periodPrediction f.ovulationPrediction).andThen
            (fetchStatsCalls f.stats)))).run s := by
    unfold fetchDataTry
    simp only [fetchPeriods_eq_calls, fetchOvulations_eq_calls, fetchPredictions_eq_calls,
      fetchStats_eq_calls, Steps.run_andThen]
  unfold fetchData
  rw [htry]
  exact finishCalls_run _ s

/-- The dashboard cells after the data call `fetchData` are those `fetchData`
computes. -/
theorem dataCall_fetchData_dashboard (w : AppWorld) (f : DashboardFetches) :
    (dataCall w (DataCall.fetchData f)).dashboard = fetchData w.dashboard f := by
  simp [dataCall, runEffects_dashboard, fetchData_eq_calls]

/-- The form cells and the alert of `handleCreate` are those its calls lead
to. -/
theorem handleCreate_eq_calls {α : Type} (submitData : α → JsonObject)
    (success fallback retry label : String) (s : FormState α)
    (o : FetchOutcome (Parsed SubmitBody)) :
    (handleCreateCalls success fallback retry label o).foldl applyForm s =
      (handleCreate submitData success fallback retry s o).state ∧
    (handleCreateCalls success fallback retry label o).filterMap Effect.alertText =
      (handleCreate submitData success fallback retry s o).alert.toList := by
  cases o with
  | threw => simp [handleCreateCalls, handleCreate, applyForm, Effect.alertText]
  | resolved response =>
    cases hj : response.json with
    | none => simp [handleCreateCalls, handleCreate, applyForm, Effect.alertText, hj]
    | some data =>
      by_cases hok : response.ok = true
      · simp [handleCreateCalls, handleCreate, applyForm, Effect.alertText, hj, hok]
      · cases data <;>
          simp [handleCreateCalls, handleCreate, applyForm, Effect.alertText, hj, hok]

/-- The period form cells after the data call are those `handleSubmit`
computes. -/
theorem dataCall_createPeriod_form (w : AppWorld) (o : FetchOutcome (Parsed SubmitBody)) :
    (dataCall w (DataCall.createPeriod o)).periodForm =
      (PeriodForm.handleSubmit w.periodForm o).state := by
  simp only [dataCall, runEffects_periodForm, PeriodForm.handleSubmitCalls,
    PeriodForm.handleSubmit]
  exact (handleCreate_eq_calls periodSubmitData _ _ _ _ w.periodForm o).1

/-- The ovulation form cells after the data call are those `handleSubmit`
computes. -/
theorem dataCall_createOvulation_form (w : AppWorld)
    (o : FetchOutcome (Parsed SubmitBody)) :
    (dataCall w (DataCall.createOvulation o)).ovulationForm =
      (OvulationForm.handleSubmit w.ovulationForm o).state := by
  simp only [dataCall, runEffects_ovulationForm, OvulationForm.handleSubmitCalls,
    OvulationForm.handleSubmit]
  exact (handleCreate_eq_calls ovulationSubmitData _ _ _ _ w.ovulationForm o).1

/-- A signed-in application whose five dashboard requests and whose create
period request are all rejected with status 401: after each call the token,
the user and the stored token are still there. -/
theorem dataCall_401_keeps_session :
    (dataCall
      { session := { user := some { id := 7, username := "ana" }, token := some "tok",
                     loading := false, storage := some "tok" },
        dashboard := initialDashboard,
        periodForm := { formData := { start_date := "2024-03-01", end_date := "",
                                      flow_intensity := "", symptoms := "" },
                        loading := false },
        ovulationForm := { formData := { ovulation_date := "2024-03-01",
                                         basal_body_temperature := "",
                                         cervical_mucus := "", symptoms := "" },
                           loading := false } }
      (DataCall.fetchData
        { periods := FetchOutcome.resolved { status := 401, json := none },
          ovulations := FetchOutcome.resolved { status := 401, json := none },
          periodPrediction := FetchOutcome.resolved { status := 401, json := none },
          ovulationPrediction := FetchOutcome.resolved { status := 401, json := none },
          stats := FetchOutcome.resolved { status := 401, json := none } })).session =
      { user := some { id := 7, username := "ana" }, token := some "tok",
        loading := false, storage := some "tok" } ∧
    (dataCall
      { session := { user := some { id := 7, username := "ana" }, token := some "tok",
                     loading := false, storage := some "tok" },
        dashboard := initialDashboard,
        periodForm := { formData := { start_date := "2024-03-01", end_date := "",
                                      flow_intensity := "", symptoms := "" },
                        loading := false },
        ovulationForm := { formData := { ovulation_date := "2024-03-01",
                                         basal_body_temperature := "",
                                         cervical_mucus := "", symptoms := "" },
                           loading := false } }
      (DataCall.createPeriod
        (FetchOutcome.resolved
          { status := 401,
            json := some (Parsed.fields
              { error := FieldValue.str "Token has expired" }) }))).session =
      { user := some { id := 7, username := "ana" }, token := some "tok",
        loading := false, storage := some "tok" } := by
  decide

/-- Claim C14, as the code has it: whatever the outcome of an authenticated data
call (the dashboard fetches, create period, create ovulation), a rejection with
status 401 included, none of the calls its handler makes writes to the session:
the token, the user and the stored token after the call are those before it. -/
theorem dataCall_keeps_session (w : AppWorld) (c : DataCall) :
    (dataCall w c).session = w.session := by
  cases c with
  | fetchData f =>
    exact runEffects_session Component.dashboard (by decide) _ w
      (fetchDataCalls_keepsSession f)
  | createPeriod o =>
    exact runEffects_session Component.periodForm (by decide) _ w
      (handleCreateCalls_keepsSession _ _ _ _ o)
  | createOvulation o =>
    exact runEffects_session Component.ovulationForm (by decide) _ w
      (handleCreateCalls_keepsSession _ _ _ _ o)

/-- Claim C15: when a create request throws or comes back with a non-success
status, the `formData` of the period form and of the ovulation form after
`handleSubmit` is the `formData` before it. -/
theorem handleSubmit_failure_keeps_form (sp : FormState PeriodFormData)
    (so : FormState OvulationFormData) (o : FetchOutcome (Parsed SubmitBody))
    (hfail : submitFailed o = true) :
    (PeriodForm.handleSubmit sp o).state.formData = sp.formData ∧
    (OvulationForm.handleSubmit so o).state.formData = so.formData := by
  cases o with
  | threw => exact ⟨rfl, rfl⟩
  | resolved response =>
    have hok : response.ok = false := by simpa [submitFailed] using hfail
    cases hj : response.json with
    | none => simp [PeriodForm.handleSubmit, OvulationForm.handleSubmit, handleCreate, hj]
    | some body =>
      cases body <;>
        simp [PeriodForm.handleSubmit, OvulationForm.handleSubmit, handleCreate, hok, hj]

/-- A create period request rejected with status 400 leaves the typed fields in
the form. -/
theorem handleSubmit_failure_keeps_form_witness :
    (PeriodForm.handleSubmit
        { formData := { start_date := "2024-03-01", end_date := "2024-02-01",
                        flow_intensity := "heavy", symptoms := "cramps" },
          loading := false }
        (FetchOutcome.resolved
          { status := 400,
            json := some (Parsed.fields
              { error := FieldValue.str "End date before start date" }) })).state.formData =
      { start_date := "2024-03-01", end_date := "2024-02-01",
        flow_intensity := "heavy", symptoms := "cramps" } :=
  (handleSubmit_failure_keeps_form
    { formData := { start_date := "2024-03-01", end_date := "2024-02-01",
                    flow_intensity := "heavy", symptoms := "cramps" },
      loading := false }
    { formData := { ovulation_date := "2024-03-01", basal_body_temperature := "",
                    cervical_mucus := "", symptoms := "" },
      loading := false }
    (FetchOutcome.resolved
      { status := 400,
        json := some (Parsed.fields
          { error := FieldValue.str "End date before start date" }) })
    (by decide)).1

/-! ## Optional fields and surfaced messages -/

/-- The period form with every optional field empty: the payload does have the
keys `flow_intensity` and `symptoms`, each with the value `null`, and lacks
`end_date` only. -/
theorem periodSubmitData_sends_null_fields :
    hasKey (periodSubmitData
      { start_date := "2024-03-01", end_date := "", flow_intensity := "",
        symptoms := "" }) "flow_intensity" = true ∧
    getKey (periodSubmitData
      { start_date := "2024-03-01", end_date := "", flow_intensity := "",
        symptoms := "" }) "flow_intensity" = some JsonValue.null ∧
    hasKey (periodSubmitData
      { start_date := "2024-03-01", end_date := "", flow_intensity := "",
        symptoms := "" }) "symptoms" = true ∧
    getKey (periodSubmitData
      { start_date := "2024-03-01", end_date := "", flow_intensity := "",
        symptoms := "" }) "symptoms" = some JsonValue.null ∧
    hasKey (periodSubmitData
      { start_date := "2024-03-01", end_date := "", flow_intensity := "",
        symptoms := "" }) "end_date" = false := by
  decide

/-- Claim C16, as the code has it: the period payload omits `end_date` when it
is entered empty and sends `flow_intensity` and `symptoms` as `null` when they
are entered empty, never an empty string for any of the three; the ovulation
payload sends an empty basal temperature, cervical mucus and symptoms as
`null`. -/
theorem optional_fields_omitted_or_null (fp : PeriodFormData) (fo : OvulationFormData) :
    (fp.end_date = "" → hasKey (periodSubmitData fp) "end_date" = false) ∧
    (fp.flow_intensity = "" →
      getKey (periodSubmitData fp) "flow_intensity" = some JsonValue.null) ∧
    (fp.symptoms = "" → getKey (periodSubmitData fp) "symptoms" = some JsonValue.null) ∧
    getKey (periodSubmitData fp) "end_date" ≠ some (JsonValue.str "") ∧
    getKey (periodSubmitData fp) "flow_intensity" ≠ some (JsonValue.str "") ∧
    getKey (periodSubmitData fp) "symptoms" ≠ some (JsonValue.str "") ∧
    (fo.basal_body_temperature = "" →
      getKey (ovulationSubmitData fo) "basal_body_temperature" = some JsonValue.null) ∧
    (fo.cervical_mucus = "" →
      getKey (ovulationSubmitData fo) "cervical_mucus" = some JsonValue.null) ∧
    (fo.symptoms = "" → getKey (ovulationSubmitData fo) "symptoms" = some JsonValue.null) := by
  refine ⟨?_, ?_, ?_, ?_, ?_, ?_, ?_, ?_, ?_⟩
  · intro h
    simp [periodSubmitData, hasKey, h]
  · intro h
    by_cases he : fp.end_date = "" <;> simp [periodSubmitData, getKey, orNull, h, he]
  · intro h
    by_cases he : fp.end_date = "" <;> simp [periodSubmitData, getKey, orNull, h, he]
  · by_cases he : fp.end_date = "" <;> simp [periodSubmitData, getKey, he]
  · by_cases he : fp.end_date = "" <;> by_cases h : fp.flow_intensity = "" <;>
      simp [periodSubmitData, getKey, orNull, h, he]
  · by_cases he : fp.end_date = "" <;> by_cases h : fp.symptoms = "" <;>
      simp [periodSubmitData, getKey, orNull, h, he]
  · intro h
    simp [ovulationSubmitData, getKey, h]
  · intro h
    simp [ovulationSubmitData, getKey, orNull, h]
  · intro h
    simp [ovulationSubmitData, getKey, orNull, h]

/-- A period form with a flow intensity and nothing else optional: no
`end_date` key is sent. -/
theorem optional_fields_omitted_or_null_witness :
    hasKey (periodSubmitData
      { start_date := "2024-03-01", end_date := "", flow_intensity := "light",
        symptoms := "" }) "end_date" = false :=
  (optional_fields_omitted_or_null
    { start_date := "2024-03-01", end_date := "", flow_intensity := "light",
      symptoms := "" }
    { ovulation_date := "2024-03-01", basal_body_temperature := "",
      cervical_mucus := "", symptoms := "" }).1 rfl

/-- Three rejected logins that do not alert what the claim says: a body
`{error: ""}` with status 401 alerts the fallback although the field is
present; a body that is not JSON with status 502, and the JSON body `null` with
status 401, alert the retry text, not the fallback. -/
theorem handleLogin_alert_not_error_field :
    (handleLogin (initialState none)
      (FetchOutcome.resolved
        { status := 401,
          json := some (Parsed.fields
            { access_token := none, user := none, error := FieldValue.str "" }) })).2 =
      some "Login failed" ∧
    (handleLogin (initialState none)
      (FetchOutcome.resolved { status := 502, json := none })).2 =
      some "Login failed. Please try again." ∧
    (handleLogin (initialState none)
      (FetchOutcome.resolved { status := 401, json := some Parsed.null })).2 =
      some "Login failed. Please try again." := by
  decide

theorem orElse_of_nonempty (e fallback : String) (h : e ≠ "") :
    orElse (FieldValue.str e) fallback = e := by
  simp [orElse, FieldValue.truthy, FieldValue.text, h]

theorem orElse_of_absent_or_empty (e : FieldValue) (fallback : String)
    (h : e = FieldValue.absent ∨ e = FieldValue.null ∨ e = FieldValue.str "") :
    orElse e fallback = fallback := by
  rcases h with h | h | h <;> simp [orElse, FieldValue.truthy, h]

/-- Claim C17, as the code has it: for a non-success response, login, register,
create period and create ovulation alert the body's `error` string when the
body parses to a value other than `null` in which that field is a non-empty
string; their fallback ("Login failed", "Registration failed", "Failed to add
period", "Failed to add ovulation data") when the body parses to a value other
than `null` in which the field is absent, `null` or the empty string; and their
retry text when the body does not parse or is `null`. -/
theorem alert_error_or_fallback (s : AppState) (sp : FormState PeriodFormData)
    (so : FormState OvulationFormData)
    (ra : Response (Parsed AuthBody)) (rs : Response (Parsed SubmitBody))
    (haok : ra.ok = false) (hsok : rs.ok = false) :
    (∀ (da : AuthBody) (e : String), ra.json = some (Parsed.fields da) →
      da.error = FieldValue.str e → e ≠ "" →
      (handleLogin s (FetchOutcome.resolved ra)).2 = some e ∧
      (handleRegister s (FetchOutcome.resolved ra)).2 = some e) ∧
    (∀ da : AuthBody, ra.json = some (Parsed.fields da) →
      (da.error = FieldValue.absent ∨ da.error = FieldValue.null ∨
        da.error = FieldValue.str "") →
      (handleLogin s (FetchOutcome.resolved ra)).2 = some "Login failed" ∧
      (handleRegister s (FetchOutcome.resolved ra)).2 = some "Registration failed") ∧
    (ra.json = none ∨ ra.json = some Parsed.null →
      (handleLogin s (FetchOutcome.resolved ra)).2 =
        some "Login failed. Please try again." ∧
      (handleRegister s (FetchOutcome.resolved ra)).2 =
        some "Registration failed. Please try again.") ∧
    (∀ (ds : SubmitBody) (e : String), rs.json = some (Parsed.fields ds) →
      ds.error = FieldValue.str e → e ≠ "" →
      (PeriodForm.handleSubmit sp (FetchOutcome.resolved rs)).alert = some e ∧
      (OvulationForm.handleSubmit so (FetchOutcome.resolved rs)).alert = some e) ∧
    (∀ ds : SubmitBody, rs.json = some (Parsed.fields ds) →
      (ds.error = FieldValue.absent ∨ ds.error = FieldValue.null ∨
        ds.error = FieldValue.str "") →
      (PeriodForm.handleSubmit sp (FetchOutcome.resolved rs)).alert =
        some "Failed to add period" ∧
      (OvulationForm.handleSubmit so (FetchOutcome.resolved rs)).alert =
        some "Failed to add ovulation data") ∧
    (rs.json = none ∨ rs.json = some Parsed.null →
      (PeriodForm.handleSubmit sp (FetchOutcome.resolved rs)).alert =
        some "Failed to add period. Please try again." ∧
      (OvulationForm.handleSubmit so (FetchOutcome.resolved rs)).alert =
        some "Failed to add ovulation data. Please try again.") := by
  refine ⟨?_, ?_, ?_, ?_, ?_, ?_⟩
  · intro da e hj he hne
    simp [handleLogin, handleRegister, handleAuth, haok, hj, he,
      orElse_of_nonempty e _ hne]
  · intro da hj h
    simp [handleLogin, handleRegister, handleAuth, haok, hj,
      orElse_of_absent_or_empty da.error _ h]
  · intro h
    rcases h with h | h <;> simp [handleLogin, handleRegister, handleAuth, h]
  · intro ds e hj he hne
    simp [PeriodForm.handleSubmit, OvulationForm.handleSubmit, handleCreate, hsok, hj, he,
      orElse_of_nonempty e _ hne]
  · intro ds hj h
    simp [PeriodForm.handleSubmit, OvulationForm.handleSubmit, handleCreate, hsok, hj,
      orElse_of_absent_or_empty ds.error _ h]
  · intro h
    rcases h with h | h <;>
      simp [PeriodForm.handleSubmit, OvulationForm.handleSubmit, handleCreate, hsok, h]

/-- A login rejected with status 401 and `{error: "Invalid credentials"}`
alerts that text. -/
theorem alert_error_or_fallback_witness :
    (handleLogin (initialState none)
      (FetchOutcome.resolved
        { status := 401,
          json := some (Parsed.fields
            { access_token := none, user := none,
              error := FieldValue.str "Invalid credentials" }) })).2 =
      some "Invalid credentials" :=
  ((alert_error_or_fallback (initialState none)
    { formData := { start_date := "2024-03-01", end_date := "", flow_intensity := "",
                    symptoms := "" },
      loading := false }
    { formData := { ovulation_date := "2024-03-01", basal_body_temperature := "",
                    cervical_mucus := "", symptoms := "" },
      loading := false }
    { status := 401,
      json := some (Parsed.fields
        { access_token := none, user := none,
          error := FieldValue.str "Invalid credentials" }) }
    { status := 400, json := some (Parsed.fields { error := FieldValue.absent }) }
    (by decide) (by decide)).1
    { access_token := none, user := none, error := FieldValue.str "Invalid credentials" }
    "Invalid credentials" rfl rfl (by decide)).1

/-! ## A period dated in the future -/

/-- Claim C18: when the first period record's parsed start date is later than
`today`, `getPhaseInfo` answers Menstrual. -/
theorem getPhaseInfo_menstrual_of_future_start (parseISO : String → Option Int)
    (today start : Int) (st : DashboardState) (p : PeriodRecord)
    (rest : List PeriodRecord)
    (hperiods : st.periods = p :: rest)
    (hparse : parseISO p.start_date = some start)
    (hfuture : today < start) :
    (getPhaseInfo parseISO today st).phase = "Menstrual" := by
  have h := tdiv_ms_nonpos_of_nonpos (today - start) (by omega)
  have h7 : (today - start).tdiv MS_PER_DAY ≤ 7 := by omega
  simp [getPhaseInfo, hperiods, hparse, differenceInDays, jsLe, h7]

/-- At ten o'clock on 2024-03-01 a first record dated 2024-03-20, nineteen days
ahead, is classified Menstrual. -/
theorem getPhaseInfo_menstrual_of_future_start_witness :
    (getPhaseInfo parseISODate (startOfDay 19783 + 36000000)
      { periods := [{ id := 2, start_date := "2024-03-20", end_date := none,
                      flow_intensity := none, symptoms := none },
                    { id := 1, start_date := "2024-02-01", end_date := none,
                      flow_intensity := none, symptoms := none }],
        ovulations := [], predictions := { period := none, ovulation := none },
        stats := { average_cycle_length := none, average_period_length := none,
                   total_periods := none, cycle_regularity := none },
        loading := false }).phase = "Menstrual" :=
  getPhaseInfo_menstrual_of_future_start parseISODate (startOfDay 19783 + 36000000)
    (startOfDay 19802) _ _ _ rfl (by decide) (by decide)

end PeriodTracker
